import Mathlib

/-!
Shallow embedding of the `nst` network-stability-test tool (Rust).

Modelling conventions used throughout this development:

* Rust `String` / `&str` values are modelled as `List Char` (`Str` below), one
  `Char` per Rust char.  `str::as_bytes` / `String::from_utf8_lossy` are
  modelled as `Char.toNat` / `Char.ofNat` per character; this is faithful to
  UTF-8 exactly on ASCII content, and theorems touching raw bytes of strings
  carry an ASCII hypothesis where it matters.
* `std::time::Duration` is modelled as a number of nanoseconds (`Nat`).
  Rust `Duration + Duration` is exact and `Duration / u32` truncates to whole
  nanoseconds, which is exactly `Nat` addition and division.
* Machine integers (`u8`, `u16`, `u64`, `usize`) are modelled as `Nat`, with
  an explicit `% 256` / `% 65536` wherever the Rust code performs a narrowing
  cast (`as u8`).
* `f64` score arithmetic is modelled over `ℚ` (exact rational arithmetic);
  the float literals 0.25, 0.20, 0.15 … are taken at their decimal values.
* Fallible Rust functions returning `Result<T>` are modelled as
  `Except NetworkTestError T`; functions whose error detail is irrelevant to
  the claims are modelled with `Option`.
* The async probe loops are modelled as folds over an explicit list of
  per-tick environment outcomes (one list entry per executed loop iteration);
  I/O results are inputs of the fold.
-/

namespace Nst

/-- Rust strings, one `Char` per Rust char. -/
abbrev Str := List Char

/-- Model of `str::as_bytes` (faithful for ASCII content). -/
def strBytes (s : Str) : List Nat := s.map Char.toNat

/-- Model of `String::from_utf8_lossy` (faithful for ASCII/Latin-1 byte values). -/
def bytesToStr (bs : List Nat) : Str := bs.map Char.ofNat

/-- Boolean test that `p` is a leading segment of `s` (Rust `str::starts_with`). -/
def leadsWith : Str → Str → Bool
  | [], _ => true
  | _ :: _, [] => false
  | p :: ps, c :: cs => p == c && leadsWith ps cs

/-- Model of Rust `str::contains(sub)`: some suffix of `s` starts with `sub`. -/
def containsSub (s sub : Str) : Bool :=
  leadsWith sub s ||
    match s with
    | [] => false
    | _ :: t => containsSub t sub

/-- The error enum of `src/lib.rs` (`NetworkTestError`). -/
inductive NetworkTestError where
  | connection (msg : Str)
  | socks5 (msg : Str)
  | io (msg : Str)
  | timeout (msg : Str)
  | config (msg : Str)
deriving DecidableEq

namespace NetworkTestError

/-- Display form of each error, from the thiserror attributes in `src/lib.rs`. -/
def display : NetworkTestError → Str
  | .connection m => "Connection error: ".data ++ m
  | .socks5 m => "SOCKS5 error: ".data ++ m
  | .io m => "IO error: ".data ++ m
  | .timeout m => "Timeout error: ".data ++ m
  | .config m => "Configuration error: ".data ++ m

/-- Whether the error kind is `Timeout` (the pattern `NetworkTestError::Timeout(_)`). -/
def isTimeoutKind : NetworkTestError → Bool
  | .timeout _ => true
  | _ => false

end NetworkTestError

/-! ## Sample statistics (src/tests/network_jitter.rs, src/tests/connection_perf.rs)

Durations are nanosecond counts, written as plain `Nat` throughout. -/

/-- Rust `Vec::sort` on durations.  On a linear order every correct sort
produces the same list, so insertion sort is an exact model of the result. -/
def sortD (xs : List Nat) : List Nat :=
  List.insertionSort (· ≤ ·) xs

/-- Rust `iter().min().unwrap_or(ZERO)`. -/
def durMin (xs : List Nat) : Nat :=
  match xs with
  | [] => 0
  | x :: t => t.foldl Nat.min x

/-- Rust `iter().max().unwrap_or(ZERO)`. -/
def durMax (xs : List Nat) : Nat :=
  match xs with
  | [] => 0
  | x :: t => t.foldl Nat.max x

/-- Rust `f64::round` for a non-negative value, followed by `as usize`:
round-half-away-from-zero is floor(q + 1/2) on non-negatives. -/
def natRound (q : ℚ) : Nat := ⌊q + 1 / 2⌋₊

/-- Rust `u64::abs_diff` / `Duration::abs_diff`. -/
def absDiff (a b : Nat) : Nat := max a b - min a b

namespace NetworkJitterTest

/-- Embeds `NetworkJitterTest::calculate_median` (src/tests/network_jitter.rs:311-325):
sort; middle element for odd length, truncated mean of the two middle elements
for even length; 0 for the empty list. -/
def calculate_median (xs : List Nat) : Nat :=
  if xs = [] then 0
  else
    let s := sortD xs
    let mid := s.length / 2
    if s.length % 2 = 0 then (s.getD (mid - 1) 0 + s.getD mid 0) / 2
    else s.getD mid 0

/-- Embeds `NetworkJitterTest::calculate_percentile` (src/tests/network_jitter.rs:327-337):
sort and index at round(p/100 * (n-1)), clamped to the last index. -/
def calculate_percentile (xs : List Nat) (percentile : ℚ) : Nat :=
  if xs = [] then 0
  else
    let s := sortD xs
    let index := natRound (percentile / 100 * ((s.length - 1 : ℕ) : ℚ))
    s.getD (min index (s.length - 1)) 0

/-- Embeds `NetworkJitterTest::calculate_jitter` (src/tests/network_jitter.rs:290-309):
0 for fewer than two samples, else the truncating mean of the absolute
differences of consecutive samples. -/
def calculate_jitter (xs : List Nat) : Nat :=
  if xs.length < 2 then 0
  else
    let jitter_sum := (List.zipWith absDiff xs.tail xs).sum
    let jitter_count := xs.length - 1
    if 0 < jitter_count then jitter_sum / jitter_count else 0

end NetworkJitterTest

namespace ConnectionPerfTest

/-- Embeds `ConnectionPerfTest::calculate_median` (src/tests/connection_perf.rs:399-413);
its body is character-for-character the same algorithm as the jitter probe's. -/
def calculate_median (xs : List Nat) : Nat :=
  if xs = [] then 0
  else
    let s := sortD xs
    let mid := s.length / 2
    if s.length % 2 = 0 then (s.getD (mid - 1) 0 + s.getD mid 0) / 2
    else s.getD mid 0

/-- Embeds `ConnectionPerfTest::calculate_percentile` (src/tests/connection_perf.rs:415-425),
identical to the jitter probe's implementation. -/
def calculate_percentile (xs : List Nat) (percentile : ℚ) : Nat :=
  if xs = [] then 0
  else
    let s := sortD xs
    let index := natRound (percentile / 100 * ((s.length - 1 : ℕ) : ℚ))
    s.getD (min index (s.length - 1)) 0

end ConnectionPerfTest

/-! ## Helper lemmas about the sample statistics -/

lemma sortD_sorted (xs : List Nat) : (sortD xs).Sorted (· ≤ ·) :=
  List.sorted_insertionSort _ xs

lemma sortD_perm (xs : List Nat) : List.Perm (sortD xs) xs :=
  List.perm_insertionSort _ xs

lemma sortD_length (xs : List Nat) : (sortD xs).length = xs.length :=
  (sortD_perm xs).length_eq

lemma foldl_min_le_start (t : List Nat) (a : Nat) : t.foldl Nat.min a ≤ a := by
  induction t generalizing a with
  | nil => exact le_refl a
  | cons b t ih =>
    exact le_trans (ih (Nat.min a b)) (Nat.min_le_left a b)

lemma foldl_min_le_mem (t : List Nat) : ∀ a x : Nat, x ∈ t →
    t.foldl Nat.min a ≤ x := by
  induction t with
  | nil => intro a x hx; cases hx
  | cons b t ih =>
    intro a x hx
    rcases List.mem_cons.mp hx with rfl | hx
    · exact le_trans (foldl_min_le_start t (Nat.min a x)) (Nat.min_le_right a x)
    · exact ih _ x hx

lemma le_foldl_max_start (t : List Nat) (a : Nat) : a ≤ t.foldl Nat.max a := by
  induction t generalizing a with
  | nil => exact le_refl a
  | cons b t ih =>
    exact le_trans (Nat.le_max_left a b) (ih (Nat.max a b))

lemma le_foldl_max_mem (t : List Nat) : ∀ a x : Nat, x ∈ t →
    x ≤ t.foldl Nat.max a := by
  induction t with
  | nil => intro a x hx; cases hx
  | cons b t ih =>
    intro a x hx
    rcases List.mem_cons.mp hx with rfl | hx
    · exact le_trans (Nat.le_max_right a x) (le_foldl_max_start t (Nat.max a x))
    · exact ih _ x hx

lemma durMin_le_mem {xs : List Nat} {x : Nat} (hx : x ∈ xs) :
    durMin xs ≤ x := by
  cases xs with
  | nil => cases hx
  | cons a t =>
    rcases List.mem_cons.mp hx with rfl | hx
    · exact foldl_min_le_start t x
    · exact foldl_min_le_mem t a x hx

lemma le_durMax_mem {xs : List Nat} {x : Nat} (hx : x ∈ xs) :
    x ≤ durMax xs := by
  cases xs with
  | nil => cases hx
  | cons a t =>
    rcases List.mem_cons.mp hx with rfl | hx
    · exact le_foldl_max_start t x
    · exact le_foldl_max_mem t a x hx

lemma getD_mem {s : List Nat} {i : Nat} (h : i < s.length) : s.getD i 0 ∈ s := by
  rw [List.getD_eq_getElem?_getD, List.getElem?_eq_getElem h]
  exact List.getElem_mem h

lemma sorted_getD_le {s : List Nat} (hs : s.Sorted (· ≤ ·)) {i j : Nat}
    (hij : i ≤ j) (hj : j < s.length) : s.getD i 0 ≤ s.getD j 0 := by
  have hi : i < s.length := lt_of_le_of_lt hij hj
  rw [List.getD_eq_getElem?_getD, List.getElem?_eq_getElem hi,
    List.getD_eq_getElem?_getD, List.getElem?_eq_getElem hj]
  have hab : (⟨i, hi⟩ : Fin s.length) ≤ ⟨j, hj⟩ := hij
  simpa using hs.rel_get_of_le hab

lemma natFloor_div (a b : Nat) : ⌊(a : ℚ) / (b : ℚ)⌋₊ = a / b := by
  have h : ((b : ℚ)) = ((b : ℕ) : ℚ) := rfl
  rw [h, Nat.floor_div_nat, Nat.floor_natCast]

lemma natRound_p95 (m : Nat) : natRound ((95 : ℚ) / 100 * (m : ℚ)) = (19 * m + 10) / 20 := by
  have h1 : (95 : ℚ) / 100 * (m : ℚ) + 1 / 2 = ((38 * m + 20 : ℕ) : ℚ) / ((40 : ℕ) : ℚ) := by
    push_cast
    ring
  unfold natRound
  rw [h1, natFloor_div]
  omega

lemma natRound_p99 (m : Nat) : natRound ((99 : ℚ) / 100 * (m : ℚ)) = (99 * m + 50) / 100 := by
  have h1 : (99 : ℚ) / 100 * (m : ℚ) + 1 / 2 = ((198 * m + 100 : ℕ) : ℚ) / ((200 : ℕ) : ℚ) := by
    push_cast
    ring
  unfold natRound
  rw [h1, natFloor_div]
  omega

/-- The ordering chain behind claim C8, proved once for the shared
median/percentile algorithm. -/
lemma stats_chain (xs : List Nat) (h : xs ≠ []) :
    durMin xs ≤ NetworkJitterTest.calculate_median xs ∧
      NetworkJitterTest.calculate_median xs ≤ NetworkJitterTest.calculate_percentile xs 95 ∧
      NetworkJitterTest.calculate_percentile xs 95 ≤ NetworkJitterTest.calculate_percentile xs 99 ∧
      NetworkJitterTest.calculate_percentile xs 99 ≤ durMax xs := by
  have hsort : (sortD xs).Sorted (· ≤ ·) := sortD_sorted xs
  have hperm : List.Perm (sortD xs) xs := sortD_perm xs
  have hn : 0 < (sortD xs).length := by
    rw [sortD_length]
    exact List.length_pos.mpr h
  set s := sortD xs with hs_def
  set n := s.length with hn_def
  have hmem : ∀ {i : Nat}, i < n → s.getD i 0 ∈ xs := fun {i} hi =>
    hperm.mem_iff.mp (getD_mem hi)
  have hmedian : NetworkJitterTest.calculate_median xs =
      (if n % 2 = 0 then (s.getD (n / 2 - 1) 0 + s.getD (n / 2) 0) / 2
        else s.getD (n / 2) 0) := by
    simp only [NetworkJitterTest.calculate_median, if_neg h]
  have hpct : ∀ p : ℚ, NetworkJitterTest.calculate_percentile xs p =
      s.getD (min (natRound (p / 100 * ((n - 1 : ℕ) : ℚ))) (n - 1)) 0 := by
    intro p
    simp only [NetworkJitterTest.calculate_percentile, if_neg h]
  have h95 : NetworkJitterTest.calculate_percentile xs 95 =
      s.getD (min ((19 * (n - 1) + 10) / 20) (n - 1)) 0 := by
    rw [hpct 95, natRound_p95]
  have h99 : NetworkJitterTest.calculate_percentile xs 99 =
      s.getD (min ((99 * (n - 1) + 50) / 100) (n - 1)) 0 := by
    rw [hpct 99, natRound_p99]
  have hi95lt : min ((19 * (n - 1) + 10) / 20) (n - 1) < n := by omega
  have hi99lt : min ((99 * (n - 1) + 50) / 100) (n - 1) < n := by omega
  have hmid_le_i95 : n / 2 ≤ min ((19 * (n - 1) + 10) / 20) (n - 1) := by omega
  have hi95_le_i99 : min ((19 * (n - 1) + 10) / 20) (n - 1) ≤
      min ((99 * (n - 1) + 50) / 100) (n - 1) := by omega
  refine ⟨?_, ?_, ?_, ?_⟩
  · -- durMin ≤ median
    rw [hmedian]
    by_cases hpar : n % 2 = 0
    · rw [if_pos hpar]
      have h1 : durMin xs ≤ s.getD (n / 2 - 1) 0 := durMin_le_mem (hmem (by omega))
      have h2 : durMin xs ≤ s.getD (n / 2) 0 := durMin_le_mem (hmem (by omega))
      omega
    · rw [if_neg hpar]
      exact durMin_le_mem (hmem (by omega))
  · -- median ≤ p95
    rw [hmedian, h95]
    have hmono : s.getD (n / 2) 0 ≤
        s.getD (min ((19 * (n - 1) + 10) / 20) (n - 1)) 0 :=
      sorted_getD_le hsort hmid_le_i95 hi95lt
    by_cases hpar : n % 2 = 0
    · rw [if_pos hpar]
      have hadj : s.getD (n / 2 - 1) 0 ≤ s.getD (n / 2) 0 :=
        sorted_getD_le hsort (by omega) (by omega)
      omega
    · rw [if_neg hpar]
      exact hmono
  · -- p95 ≤ p99
    rw [h95, h99]
    exact sorted_getD_le hsort hi95_le_i99 hi99lt
  · -- p99 ≤ max
    rw [h99]
    exact le_durMax_mem (hmem hi99lt)

lemma zip_absDiff_sum : ∀ xs : List Nat,
    (List.zipWith absDiff xs.tail xs).sum
      = ∑ i in Finset.range (xs.length - 1), absDiff (xs.getD (i + 1) 0) (xs.getD i 0) := by
  intro xs
  induction xs with
  | nil => simp
  | cons a t ih =>
    cases t with
    | nil => simp
    | cons b t' =>
      have hstep : (List.zipWith absDiff (b :: t').tail (b :: t')).sum
          = ∑ i in Finset.range ((b :: t').length - 1),
              absDiff ((b :: t').getD (i + 1) 0) ((b :: t').getD i 0) := ih
      simp only [List.tail_cons, List.length_cons, Nat.add_sub_cancel] at hstep ⊢
      calc (List.zipWith absDiff (b :: t') (a :: b :: t')).sum
          = absDiff b a + (List.zipWith absDiff t' (b :: t')).sum := by
            simp only [List.zipWith_cons_cons, List.sum_cons]
        _ = absDiff b a + ∑ i in Finset.range t'.length,
              absDiff ((b :: t').getD (i + 1) 0) ((b :: t').getD i 0) := by
            rw [hstep]
        _ = ∑ i in Finset.range (t'.length + 1),
              absDiff ((a :: b :: t').getD (i + 1) 0) ((a :: b :: t').getD i 0) := by
            rw [Finset.sum_range_succ', Nat.add_comm]
            congr 1

/-! ## Claim C8 and C9 theorems -/

/-- C8: for every non-empty list of duration samples, the minimum, the median
computed by calculate_median (middle element, or mean of the two middle
elements for even length), and the percentiles computed by
calculate_percentile with index round(p/100 * (n-1)) satisfy
min ≤ median ≤ p95 ≤ p99 ≤ max, for both the jitter probe's and the
connection-perf probe's (identical) implementations. -/
theorem c8_percentile_ordering (xs : List Nat) (h : xs ≠ []) :
    (durMin xs ≤ NetworkJitterTest.calculate_median xs ∧
      NetworkJitterTest.calculate_median xs ≤ NetworkJitterTest.calculate_percentile xs 95 ∧
      NetworkJitterTest.calculate_percentile xs 95 ≤ NetworkJitterTest.calculate_percentile xs 99 ∧
      NetworkJitterTest.calculate_percentile xs 99 ≤ durMax xs) ∧
    (durMin xs ≤ ConnectionPerfTest.calculate_median xs ∧
      ConnectionPerfTest.calculate_median xs ≤ ConnectionPerfTest.calculate_percentile xs 95 ∧
      ConnectionPerfTest.calculate_percentile xs 95 ≤ ConnectionPerfTest.calculate_percentile xs 99 ∧
      ConnectionPerfTest.calculate_percentile xs 99 ≤ durMax xs) := by
  have hj := stats_chain xs h
  have hm : ConnectionPerfTest.calculate_median xs = NetworkJitterTest.calculate_median xs := rfl
  have hp95 : ConnectionPerfTest.calculate_percentile xs 95 =
      NetworkJitterTest.calculate_percentile xs 95 := rfl
  have hp99 : ConnectionPerfTest.calculate_percentile xs 99 =
      NetworkJitterTest.calculate_percentile xs 99 := rfl
  refine ⟨hj, ?_⟩
  rw [hm, hp95, hp99]
  exact hj

/-- Witness for C8 at the concrete sample list [4, 7, 2]. -/
theorem c8_percentile_ordering_witness :
    ([4, 7, 2] : List Nat) ≠ [] ∧
      ((durMin [4, 7, 2] ≤ NetworkJitterTest.calculate_median [4, 7, 2] ∧
        NetworkJitterTest.calculate_median [4, 7, 2] ≤
          NetworkJitterTest.calculate_percentile [4, 7, 2] 95 ∧
        NetworkJitterTest.calculate_percentile [4, 7, 2] 95 ≤
          NetworkJitterTest.calculate_percentile [4, 7, 2] 99 ∧
        NetworkJitterTest.calculate_percentile [4, 7, 2] 99 ≤ durMax [4, 7, 2]) ∧
      (durMin [4, 7, 2] ≤ ConnectionPerfTest.calculate_median [4, 7, 2] ∧
        ConnectionPerfTest.calculate_median [4, 7, 2] ≤
          ConnectionPerfTest.calculate_percentile [4, 7, 2] 95 ∧
        ConnectionPerfTest.calculate_percentile [4, 7, 2] 95 ≤
          ConnectionPerfTest.calculate_percentile [4, 7, 2] 99 ∧
        ConnectionPerfTest.calculate_percentile [4, 7, 2] 99 ≤ durMax [4, 7, 2])) :=
  ⟨by decide, c8_percentile_ordering [4, 7, 2] (by decide)⟩

/-- C9: the computed jitter is the (nanosecond-truncating) arithmetic mean of
the absolute differences of consecutive RTT samples, and 0 for fewer than two
samples. -/
theorem c9_jitter_mean (xs : List Nat) :
    (xs.length < 2 → NetworkJitterTest.calculate_jitter xs = 0) ∧
    (2 ≤ xs.length →
      NetworkJitterTest.calculate_jitter xs =
        (∑ i in Finset.range (xs.length - 1),
          absDiff (xs.getD (i + 1) 0) (xs.getD i 0)) / (xs.length - 1)) := by
  constructor
  · intro h
    simp only [NetworkJitterTest.calculate_jitter, if_pos h]
  · intro h
    have hlt : ¬xs.length < 2 := not_lt.mpr h
    have hc : 0 < xs.length - 1 := by omega
    simp only [NetworkJitterTest.calculate_jitter, if_neg hlt, if_pos hc]
    rw [zip_absDiff_sum]

/-- Witness for C9: a single sample gives jitter 0; three samples give the
mean of the two consecutive absolute differences. -/
theorem c9_jitter_mean_witness :
    NetworkJitterTest.calculate_jitter [7] = 0 ∧
      NetworkJitterTest.calculate_jitter [5, 9, 2] =
        (∑ i in Finset.range 2, absDiff ([5, 9, 2].getD (i + 1) 0) ([5, 9, 2].getD i 0)) / 2 :=
  ⟨(c9_jitter_mean [7]).1 (by decide), (c9_jitter_mean [5, 9, 2]).2 (by decide)⟩

/-! ## Overall score (src/metrics.rs)

Only the fields that `Metrics::calculate_overall_score` reads are modelled:
each per-probe metrics structure is reduced to the one score field the
aggregation consumes, and scores are exact rationals. -/

structure TcpStabilityMetrics where
  stability_score : ℚ

structure BandwidthMetrics where
  bandwidth_score : ℚ

structure ConnectionPerfMetrics where
  performance_score : ℚ

structure DnsStabilityMetrics where
  dns_score : ℚ

structure NetworkJitterMetrics where
  network_quality_score : ℚ

structure Metrics where
  tcp_stability : Option TcpStabilityMetrics
  bandwidth : Option BandwidthMetrics
  connection_perf : Option ConnectionPerfMetrics
  dns_stability : Option DnsStabilityMetrics
  network_jitter : Option NetworkJitterMetrics
  overall_score : Option ℚ

/-- The (score, weight) pairs pushed by the five successive `if let Some`
blocks of `Metrics::calculate_overall_score` (src/metrics.rs:192-219).  The
Rust code pushes into two parallel vectors in the same order; since every
branch pushes one score and one weight together, the zipped pair list below
carries the same data. -/
def scorePairs (m : Metrics) : List (ℚ × ℚ) :=
  (m.tcp_stability.toList.map fun t => (t.stability_score, 0.25)) ++
    (m.bandwidth.toList.map fun b => (b.bandwidth_score, 0.20)) ++
    (m.connection_perf.toList.map fun c => (c.performance_score, 0.20)) ++
    (m.dns_stability.toList.map fun d => (d.dns_score, 0.15)) ++
    (m.network_jitter.toList.map fun j => (j.network_quality_score, 0.20))

/-- Embeds `Metrics::calculate_overall_score` (src/metrics.rs:192-231):
when at least one probe score is present, set overall_score to
weighted_sum / total_weight; otherwise leave the struct unchanged. -/
def calculate_overall_score (m : Metrics) : Metrics :=
  let pairs := scorePairs m
  if pairs = [] then m
  else
    let avg := (pairs.map fun p => p.1 * p.2).sum / (pairs.map Prod.snd).sum
    { m with overall_score := some avg }

/-- Spec-side expression: the total weight of the probes that actually ran. -/
def presentWeight (m : Metrics) : ℚ :=
  (if m.tcp_stability.isSome then (0.25 : ℚ) else 0) +
    (if m.bandwidth.isSome then (0.20 : ℚ) else 0) +
    (if m.connection_perf.isSome then (0.20 : ℚ) else 0) +
    (if m.dns_stability.isSome then (0.15 : ℚ) else 0) +
    (if m.network_jitter.isSome then (0.20 : ℚ) else 0)

/-- Spec-side expression: the weight-scaled sum of the scores of the probes
that actually ran (an absent probe contributes 0). -/
def weightedScoreSum (m : Metrics) : ℚ :=
  0.25 * (m.tcp_stability.elim 0 fun t => t.stability_score) +
    0.20 * (m.bandwidth.elim 0 fun b => b.bandwidth_score) +
    0.20 * (m.connection_perf.elim 0 fun c => c.performance_score) +
    0.15 * (m.dns_stability.elim 0 fun d => d.dns_score) +
    0.20 * (m.network_jitter.elim 0 fun j => j.network_quality_score)

/-! ### Helper lemmas for the overall score -/

lemma pairs_snd_sum_pos (L : List (ℚ × ℚ)) (hw : ∀ p ∈ L, 0 < p.2) (hne : L ≠ []) :
    0 < (L.map Prod.snd).sum := by
  induction L with
  | nil => exact absurd rfl hne
  | cons a t ih =>
    have ha : 0 < a.2 := hw a (List.mem_cons_self a t)
    cases t with
    | nil => simpa using ha
    | cons b t' =>
      have ht : 0 < ((b :: t').map Prod.snd).sum :=
        ih (fun p hp => hw p (List.mem_cons_of_mem a hp)) (by simp)
      simpa using add_pos ha ht

lemma pairs_mul_sum_nonneg (L : List (ℚ × ℚ)) (hw : ∀ p ∈ L, 0 < p.2)
    (hs : ∀ p ∈ L, 0 ≤ p.1 ∧ p.1 ≤ 100) :
    0 ≤ (L.map fun p => p.1 * p.2).sum := by
  apply List.sum_nonneg
  intro x hx
  rcases List.mem_map.mp hx with ⟨p, hp, rfl⟩
  exact mul_nonneg (hs p hp).1 (hw p hp).le

lemma pairs_mul_sum_le (L : List (ℚ × ℚ)) (hw : ∀ p ∈ L, 0 < p.2)
    (hs : ∀ p ∈ L, 0 ≤ p.1 ∧ p.1 ≤ 100) :
    (L.map fun p => p.1 * p.2).sum ≤ 100 * (L.map Prod.snd).sum := by
  induction L with
  | nil => simp
  | cons a t ih =>
    have ha : a.1 * a.2 ≤ 100 * a.2 :=
      mul_le_mul_of_nonneg_right (hs a (List.mem_cons_self a t)).2
        (hw a (List.mem_cons_self a t)).le
    have ht := ih (fun p hp => hw p (List.mem_cons_of_mem a hp))
      (fun p hp => hs p (List.mem_cons_of_mem a hp))
    simp only [List.map_cons, List.sum_cons, mul_add]
    exact add_le_add ha ht

lemma weighted_avg_bounds (L : List (ℚ × ℚ)) (hne : L ≠ []) (hw : ∀ p ∈ L, 0 < p.2)
    (hs : ∀ p ∈ L, 0 ≤ p.1 ∧ p.1 ≤ 100) :
    0 ≤ (L.map fun p => p.1 * p.2).sum / (L.map Prod.snd).sum ∧
      (L.map fun p => p.1 * p.2).sum / (L.map Prod.snd).sum ≤ 100 := by
  have hpos := pairs_snd_sum_pos L hw hne
  refine ⟨div_nonneg (pairs_mul_sum_nonneg L hw hs) hpos.le, ?_⟩
  rw [div_le_iff₀ hpos]
  simpa [mul_comm] using pairs_mul_sum_le L hw hs

lemma scorePairs_eq_nil_iff (m : Metrics) :
    scorePairs m = [] ↔
      (m.tcp_stability = none ∧ m.bandwidth = none ∧ m.connection_perf = none ∧
        m.dns_stability = none ∧ m.network_jitter = none) := by
  obtain ⟨tcp, bw, cp, dns, jit, ov⟩ := m
  cases tcp <;> cases bw <;> cases cp <;> cases dns <;> cases jit <;> simp [scorePairs]

lemma scorePairs_cases (m : Metrics) (p : ℚ × ℚ) (hp : p ∈ scorePairs m) :
    (∃ t, m.tcp_stability = some t ∧ p = (t.stability_score, 0.25)) ∨
      (∃ b, m.bandwidth = some b ∧ p = (b.bandwidth_score, 0.20)) ∨
      (∃ c, m.connection_perf = some c ∧ p = (c.performance_score, 0.20)) ∨
      (∃ d, m.dns_stability = some d ∧ p = (d.dns_score, 0.15)) ∨
      (∃ j, m.network_jitter = some j ∧ p = (j.network_quality_score, 0.20)) := by
  simp only [scorePairs, List.mem_append, List.mem_map] at hp
  rcases hp with ((((⟨t, ht, rfl⟩ | ⟨b, hb, rfl⟩) | ⟨c, hc, rfl⟩) | ⟨d, hd, rfl⟩) | ⟨j, hj, rfl⟩)
  · exact Or.inl ⟨t, by simpa using ht, rfl⟩
  · exact Or.inr (Or.inl ⟨b, by simpa using hb, rfl⟩)
  · exact Or.inr (Or.inr (Or.inl ⟨c, by simpa using hc, rfl⟩))
  · exact Or.inr (Or.inr (Or.inr (Or.inl ⟨d, by simpa using hd, rfl⟩)))
  · exact Or.inr (Or.inr (Or.inr (Or.inr ⟨j, by simpa using hj, rfl⟩)))

lemma scorePairs_num (m : Metrics) :
    ((scorePairs m).map fun p => p.1 * p.2).sum = weightedScoreSum m := by
  obtain ⟨tcp, bw, cp, dns, jit, ov⟩ := m
  cases tcp <;> cases bw <;> cases cp <;> cases dns <;> cases jit <;>
    simp [scorePairs, weightedScoreSum, Option.elim] <;> ring

lemma scorePairs_den (m : Metrics) :
    ((scorePairs m).map Prod.snd).sum = presentWeight m := by
  obtain ⟨tcp, bw, cp, dns, jit, ov⟩ := m
  cases tcp <;> cases bw <;> cases cp <;> cases dns <;> cases jit <;>
    simp [scorePairs, presentWeight] <;> ring


/-- C3: calculate_overall_score produces the weighted average of exactly the
present per-probe scores (weights: TCP 0.25, bandwidth 0.20, connection-perf
0.20, DNS 0.15, jitter 0.20) divided by the sum of the present weights; it
leaves the overall score unchanged (hence None on a fresh Metrics) when no
probe result is present; and when every present score lies in [0,100] (and no
stale overall score was present), the overall score lies in [0,100]. -/
theorem c3_overall_score (m : Metrics) :
    ((m.tcp_stability.isSome = true ∨ m.bandwidth.isSome = true ∨
        m.connection_perf.isSome = true ∨ m.dns_stability.isSome = true ∨
        m.network_jitter.isSome = true) →
      (calculate_overall_score m).overall_score =
        some (weightedScoreSum m / presentWeight m)) ∧
    (m.tcp_stability = none → m.bandwidth = none → m.connection_perf = none →
      m.dns_stability = none → m.network_jitter = none →
      (calculate_overall_score m).overall_score = m.overall_score) ∧
    ((∀ t, m.tcp_stability = some t → 0 ≤ t.stability_score ∧ t.stability_score ≤ 100) →
      (∀ b, m.bandwidth = some b → 0 ≤ b.bandwidth_score ∧ b.bandwidth_score ≤ 100) →
      (∀ c, m.connection_perf = some c → 0 ≤ c.performance_score ∧ c.performance_score ≤ 100) →
      (∀ d, m.dns_stability = some d → 0 ≤ d.dns_score ∧ d.dns_score ≤ 100) →
      (∀ j, m.network_jitter = some j →
        0 ≤ j.network_quality_score ∧ j.network_quality_score ≤ 100) →
      m.overall_score = none →
      ∀ x, (calculate_overall_score m).overall_score = some x → 0 ≤ x ∧ x ≤ 100) := by
  refine ⟨?_, ?_, ?_⟩
  · intro hpres
    have hne : scorePairs m ≠ [] := by
      rw [Ne, scorePairs_eq_nil_iff]
      rintro ⟨h1, h2, h3, h4, h5⟩
      rcases hpres with hh | hh | hh | hh | hh <;> simp_all
    simp only [calculate_overall_score, if_neg hne]
    rw [scorePairs_num, scorePairs_den]
  · intro h1 h2 h3 h4 h5
    have hnil : scorePairs m = [] := (scorePairs_eq_nil_iff m).mpr ⟨h1, h2, h3, h4, h5⟩
    simp [calculate_overall_score, hnil]
  · intro ht hb hc hd hj hnone x hx
    by_cases hnil : scorePairs m = []
    · simp only [calculate_overall_score, if_pos hnil, hnone] at hx
      cases hx
    · have hw : ∀ p ∈ scorePairs m, 0 < p.2 := by
        intro p hp
        rcases scorePairs_cases m p hp with
          ⟨t, _, rfl⟩ | ⟨b, _, rfl⟩ | ⟨c, _, rfl⟩ | ⟨d, _, rfl⟩ | ⟨j, _, rfl⟩ <;> norm_num
      have hs : ∀ p ∈ scorePairs m, 0 ≤ p.1 ∧ p.1 ≤ 100 := by
        intro p hp
        rcases scorePairs_cases m p hp with
          ⟨t, h, rfl⟩ | ⟨b, h, rfl⟩ | ⟨c, h, rfl⟩ | ⟨d, h, rfl⟩ | ⟨j, h, rfl⟩
        · exact ht t h
        · exact hb b h
        · exact hc c h
        · exact hd d h
        · exact hj j h
      have hbounds := weighted_avg_bounds (scorePairs m) hnil hw hs
      simp only [calculate_overall_score, if_neg hnil, Option.some.injEq] at hx
      rw [← hx]
      exact hbounds

/-- Witness for C3 at a Metrics value with TCP (80) and DNS (60) present. -/
theorem c3_overall_score_witness :
    (calculate_overall_score
        { tcp_stability := some ⟨80⟩, bandwidth := none, connection_perf := none,
          dns_stability := some ⟨60⟩, network_jitter := none,
          overall_score := none }).overall_score =
      some (weightedScoreSum
          { tcp_stability := some ⟨80⟩, bandwidth := none, connection_perf := none,
            dns_stability := some ⟨60⟩, network_jitter := none, overall_score := none } /
        presentWeight
          { tcp_stability := some ⟨80⟩, bandwidth := none, connection_perf := none,
            dns_stability := some ⟨60⟩, network_jitter := none, overall_score := none }) :=
  (c3_overall_score _).1 (Or.inl rfl)


/-! ## Decimal formatting (Rust integer Display) -/

/-- Fuel-based digit emitter: decimal digits of n (most significant first),
empty for 0.  Structural recursion on fuel keeps it kernel-reducible. -/
def toDecAux : Nat → Nat → Str
  | 0, _ => []
  | fuel + 1, n => if n = 0 then [] else toDecAux fuel (n / 10) ++ [Char.ofNat (48 + n % 10)]

/-- Rust integer Display (canonical decimal, no sign, no leading zeros). -/
def natRepr (n : Nat) : Str := if n = 0 then "0".data else toDecAux (n + 1) n

/-! ## DNS probe loop (src/tests/dns_stability.rs) -/

namespace DnsStabilityTest

/-- Relay/socket operations the DNS query path performs, recorded as a trace.
`udpAssociate` is one call to `client.udp_associate()`, i.e. one new
`Socks5UdpRelay` (one UDP ASSOCIATE with its control stream and UDP socket). -/
inductive DnsEvent where
  | udpAssociate
  | sendTo
  | recvFrom
deriving DecidableEq

/-- Environment outcome of the fallible steps inside
`dns_query_via_proxy` (src/tests/dns_stability.rs:205-248). -/
inductive DnsInner where
  | associateFail (e : NetworkTestError)
  | sendFail (e : NetworkTestError)
  | recvFail (e : NetworkTestError)
  | response (bytes : List Nat)

/-- Embeds `DnsStabilityTest::create_dns_query_packet`
(src/tests/dns_stability.rs:250-270): fixed 12-byte header, length-prefixed
labels split on '.', zero terminator, QTYPE=A, QCLASS=IN; Config error when a
label exceeds 63 bytes (below that bound the `as u8` cast is exact). -/
def create_dns_query_packet (domain : Str) : Except NetworkTestError (List Nat) :=
  if (domain.splitOn '.').any (fun part => 63 < part.length) then
    .error (.config "Domain part too long".data)
  else
    .ok ([0x12, 0x34, 0x01, 0x00, 0x00, 0x01, 0x00, 0x00, 0x00, 0x00, 0x00, 0x00] ++
      ((domain.splitOn '.').flatMap fun part => part.length :: strBytes part) ++
      [0] ++ [0x00, 0x01] ++ [0x00, 0x01])

/-- Embeds `DnsStabilityTest::dns_query_via_proxy`
(src/tests/dns_stability.rs:205-248).  It calls `client.udp_associate()`
first on every invocation, then builds the query, sends it, receives a
response, and checks length ≥ 12 and RCODE (low nibble of byte 3) = 0.
Every error is wrapped as a Connection error except the packet-building
Config error, which propagates unwrapped. -/
def dns_query_via_proxy (domain : Str) (st : DnsInner) :
    List DnsEvent × Except NetworkTestError Unit :=
  match st with
  | .associateFail e =>
      ([.udpAssociate],
        .error (.connection ("Failed to create UDP association: ".data ++ e.display)))
  | .sendFail e =>
      match create_dns_query_packet domain with
      | .error pe => ([.udpAssociate], .error pe)
      | .ok _ =>
          ([.udpAssociate, .sendTo],
            .error (.connection ("Failed to send DNS query: ".data ++ e.display)))
  | .recvFail e =>
      match create_dns_query_packet domain with
      | .error pe => ([.udpAssociate], .error pe)
      | .ok _ =>
          ([.udpAssociate, .sendTo, .recvFrom],
            .error (.connection ("Failed to receive DNS response: ".data ++ e.display)))
  | .response bytes =>
      match create_dns_query_packet domain with
      | .error pe => ([.udpAssociate], .error pe)
      | .ok _ =>
          ([.udpAssociate, .sendTo, .recvFrom],
            if bytes.length < 12 then .error (.connection "Invalid DNS response".data)
            else if bytes.getD 3 0 % 16 ≠ 0 then
              .error (.connection
                ("DNS query failed with code: ".data ++ natRepr (bytes.getD 3 0 % 16)))
            else .ok ())

/-- Environment outcome of one `perform_dns_query` call
(src/tests/dns_stability.rs:185-203): either the 5-second outer timeout fires
(the cancelled inner future contributed the trace `evs`), or the inner query
ran to completion. -/
inductive DnsStep where
  | timeoutOuter (evs : List DnsEvent)
  | inner (st : DnsInner)

/-- Embeds `DnsStabilityTest::perform_dns_query`: outer timeout becomes a
Timeout-kind error; inner results pass through unchanged. -/
def perform_dns_query (domain : Str) (step : DnsStep) :
    List DnsEvent × Except NetworkTestError Unit :=
  match step with
  | .timeoutOuter evs =>
      (evs, .error (.timeout ("DNS query timeout for ".data ++ domain)))
  | .inner st => dns_query_via_proxy domain st

structure DnsRunState where
  total_queries : Nat
  successful_queries : Nat
  failed_queries : Nat
  timeout_queries : Nat
  domain_index : Nat
  events : List DnsEvent
deriving DecidableEq

/-- One iteration of the `while Instant::now() < end_time` loop of
`run_dns_test` (src/tests/dns_stability.rs:103-139): break when the domain
list is empty, otherwise pick the round-robin domain, count the query, and
classify the outcome (`Ok` → successful, `Err(Timeout(_))` → timeout,
any other `Err` → failed). -/
def dnsTick (domains : List Str) (s : DnsRunState) (step : DnsStep) : DnsRunState :=
  if domains = [] then s
  else
    let domain := domains.getD (s.domain_index % domains.length) []
    let (evs, res) := perform_dns_query domain step
    let s1 : DnsRunState :=
      { s with
        total_queries := s.total_queries + 1
        domain_index := s.domain_index + 1
        events := s.events ++ evs }
    match res with
    | .ok _ => { s1 with successful_queries := s1.successful_queries + 1 }
    | .error (.timeout _) => { s1 with timeout_queries := s1.timeout_queries + 1 }
    | .error _ => { s1 with failed_queries := s1.failed_queries + 1 }

/-- The DNS probe loop as a fold over the executed ticks, starting from
all-zero counters. -/
def run_dns_test (domains : List Str) (steps : List DnsStep) : DnsRunState :=
  steps.foldl (dnsTick domains) ⟨0, 0, 0, 0, 0, []⟩

/-- Number of UdpRelays opened during a run (UDP ASSOCIATE count in the trace). -/
def relayOpens (s : DnsRunState) : Nat := s.events.count .udpAssociate

end DnsStabilityTest

/-! ## Jitter probe loop (src/tests/network_jitter.rs) -/

namespace NetworkJitterTest

/-- Environment outcome of the fallible steps inside `tcp_ping_via_proxy`
(src/tests/network_jitter.rs:260-288). -/
inductive TcpPingStep where
  | connectFail (e : NetworkTestError)
  | writeFail (msg : Str)
  | readTimeout
  | readFail (msg : Str)
  | readOk (n : Nat)

/-- Embeds `NetworkJitterTest::tcp_ping_via_proxy`: connect errors are
wrapped as Connection errors, write/read io errors pass as Io, the 1-second
read deadline yields Timeout("Response timeout"), and a 0-byte read yields
Connection("Connection closed by peer"). -/
def tcp_ping_via_proxy (st : TcpPingStep) : Except NetworkTestError Unit :=
  match st with
  | .connectFail e =>
      .error (.connection ("Failed to connect to target: ".data ++ e.display))
  | .writeFail msg => .error (.io msg)
  | .readTimeout => .error (.timeout "Response timeout".data)
  | .readFail msg => .error (.io msg)
  | .readOk n =>
      if n = 0 then .error (.connection "Connection closed by peer".data) else .ok ()

/-- The `PingResult` struct (success flag, optional RTT, optional error
string); the unused `_timestamp` field is omitted. -/
structure PingResult where
  success : Bool
  rtt : Option Nat
  error : Option Str

/-- Environment outcome of one `perform_ping` call: the 5-second outer
timeout, or the inner ping (with the RTT that would be measured on success). -/
inductive PingStep where
  | timeoutOuter
  | inner (st : TcpPingStep) (rtt : Nat)

/-- Embeds `NetworkJitterTest::perform_ping`
(src/tests/network_jitter.rs:226-258): every path returns Ok; errors are
stored as their display string, the outer timeout as the literal "timeout". -/
def perform_ping (step : PingStep) : Except NetworkTestError PingResult :=
  match step with
  | .timeoutOuter => .ok ⟨false, none, some "timeout".data⟩
  | .inner st rtt =>
      match tcp_ping_via_proxy st with
      | .ok _ => .ok ⟨true, some rtt, none⟩
      | .error e => .ok ⟨false, none, some e.display⟩

structure JitterRunState where
  total_pings : Nat
  successful_pings : Nat
  failed_pings : Nat
  timeout_pings : Nat
  target_index : Nat
  rtt_samples : List Nat
deriving DecidableEq

/-- One iteration of the `run_jitter_test` loop
(src/tests/network_jitter.rs:119-169), with the four match arms in source
order: success with an RTT → successful; failure with an error string →
timeout when the string contains "timeout", else failed; an Err result or
any other shape → failed. -/
def jitterTick (targets : List Str) (s : JitterRunState) (step : PingStep) : JitterRunState :=
  if targets = [] then s
  else
    let s1 : JitterRunState :=
      { s with
        total_pings := s.total_pings + 1
        target_index := s.target_index + 1 }
    match perform_ping step with
    | .ok pr =>
        match pr.success, pr.rtt, pr.error with
        | true, some rtt, _ =>
            { s1 with
              successful_pings := s1.successful_pings + 1
              rtt_samples := s1.rtt_samples ++ [rtt] }
        | false, _, some err =>
            if containsSub err "timeout".data then
              { s1 with timeout_pings := s1.timeout_pings + 1 }
            else { s1 with failed_pings := s1.failed_pings + 1 }
        | _, _, _ => { s1 with failed_pings := s1.failed_pings + 1 }
    | .error _ => { s1 with failed_pings := s1.failed_pings + 1 }

/-- The jitter probe loop as a fold over the executed ticks. -/
def run_jitter_test (targets : List Str) (steps : List PingStep) : JitterRunState :=
  steps.foldl (jitterTick targets) ⟨0, 0, 0, 0, 0, []⟩

end NetworkJitterTest

/-! ## TCP-stability probe loop (src/tests/tcp_stability.rs) -/

namespace TcpStabilityTest

/-- Environment outcome of one heartbeat: success with a measured RTT,
an inner write/read error, or the 5-second heartbeat timeout. -/
inductive HbOutcome where
  | ok (rtt : Nat)
  | errInner
  | errTimeout
deriving DecidableEq

/-- Whether the heartbeat outcome is the success arm. -/
def HbOutcome.isOk : HbOutcome → Bool
  | .ok _ => true
  | _ => false

/-- Environment of one iteration of the while loop: the outcome of the
re-CONNECT (used only when the connection is broken) and of the heartbeat
(used only when a stream is present). -/
structure TcpIter where
  reconnectOk : Bool
  hb : HbOutcome

/-- Counters of `run_stability_test`; `connection_drops` is the length of the
drops vector (the records themselves hold only wall-clock data, which the
model abstracts), and `streamSome`/`connection_broken` mirror the
`stream.is_some()` / `connection_broken` variables. -/
structure TcpRunState where
  total_heartbeats : Nat
  successful_heartbeats : Nat
  failed_heartbeats : Nat
  reconnections : Nat
  connection_drops : Nat
  streamSome : Bool
  connection_broken : Bool
deriving DecidableEq

/-- One iteration of the while loop of `run_stability_test`
(src/tests/tcp_stability.rs:97-170): if the stream is gone and the connection
is broken, attempt a re-CONNECT (on success increment reconnections and push
a ConnectionDrop record; on failure sleep and continue, skipping the
heartbeat); then, if a stream is present, send one heartbeat and classify it. -/
def tcpIterStep (s : TcpRunState) (it : TcpIter) : TcpRunState :=
  let s1 : TcpRunState :=
    if ¬s.streamSome ∧ s.connection_broken then
      if it.reconnectOk then
        { s with
          streamSome := true
          connection_broken := false
          reconnections := s.reconnections + 1
          connection_drops := s.connection_drops + 1 }
      else s
    else s
  if s1.streamSome then
    let s2 : TcpRunState := { s1 with total_heartbeats := s1.total_heartbeats + 1 }
    match it.hb with
    | .ok _ => { s2 with successful_heartbeats := s2.successful_heartbeats + 1 }
    | .errInner =>
        { s2 with
          failed_heartbeats := s2.failed_heartbeats + 1
          streamSome := false
          connection_broken := true }
    | .errTimeout =>
        { s2 with
          failed_heartbeats := s2.failed_heartbeats + 1
          streamSome := false
          connection_broken := true }
  else s1

/-- State right after the successful initial CONNECT: all counters zero,
stream present, connection not broken. -/
def initState : TcpRunState := ⟨0, 0, 0, 0, 0, true, false⟩

/-- Embeds `run_stability_test` (src/tests/tcp_stability.rs:64-181): a failed
initial CONNECT returns a Connection error immediately (before the loop);
otherwise the loop runs over the executed iterations. -/
def run_stability_test (initialConnect : Except NetworkTestError Unit)
    (iters : List TcpIter) : Except NetworkTestError TcpRunState :=
  match initialConnect with
  | .error e =>
      .error (.connection ("Failed to establish initial connection: ".data ++ e.display))
  | .ok _ => .ok (iters.foldl tcpIterStep initState)

end TcpStabilityTest

/-! ## Concurrent connection batches (src/tests/connection_perf.rs) -/

namespace ConnectionPerfTest

/-- The fixed list of concurrency levels (src/tests/connection_perf.rs:173). -/
def concurrent_levels : List Nat := [2, 5, 10, 20, 50]

/-- The per-level result row; the timing fields are not consumed by the
claims and are omitted. -/
structure ConcurrentTestResult where
  concurrent_level : Nat
  successful_connections : Nat
  failed_connections : Nat
deriving DecidableEq

/-- Embeds `run_concurrent_tests` (src/tests/connection_perf.rs:171-228):
for each level L of concurrent_levels with L ≤ total_connections (larger
levels are skipped by `continue`), spawn L attempts; `success L i` models
task i of batch L finishing with `is_ok() && success`; failed is L minus the
successes. -/
def run_concurrent_tests (total_connections : Nat) (success : Nat → Nat → Bool) :
    List ConcurrentTestResult :=
  (concurrent_levels.filter fun L => decide (L ≤ total_connections)).map fun L =>
    let okCount := ((List.range L).filter fun i => success L i).length
    { concurrent_level := L
      successful_connections := okCount
      failed_connections := L - okCount }

/-- The `max_concurrent` selection inside `calculate_performance_score`
(src/tests/connection_perf.rs:466-472): the max level among rows whose
successes equal their level. -/
def max_concurrent_successful (results : List ConcurrentTestResult) : Option Nat :=
  ((results.filter fun r =>
      decide (r.successful_connections = r.concurrent_level)).map
    (fun r => r.concurrent_level)).max?

/-- The concurrent component of `calculate_performance_score`
(src/tests/connection_perf.rs:466-476): (max/50*100).min(100.0), or 0 when no
level was fully successful. -/
def concurrent_score (results : List ConcurrentTestResult) : ℚ :=
  match max_concurrent_successful results with
  | some m => min ((m : ℚ) / 50 * 100) 100
  | none => 0

end ConnectionPerfTest

/-! ### Loop-counter helper lemmas (claims C4, C5, C7, C10) -/

namespace DnsStabilityTest

lemma dnsTick_counts (domains : List Str) (hne : domains ≠ []) (s : DnsRunState)
    (step : DnsStep) :
    (dnsTick domains s step).total_queries = s.total_queries + 1 ∧
      (dnsTick domains s step).successful_queries + (dnsTick domains s step).failed_queries +
          (dnsTick domains s step).timeout_queries
        = s.successful_queries + s.failed_queries + s.timeout_queries + 1 := by
  unfold dnsTick
  rw [if_neg hne]
  rcases hq : perform_dns_query (domains.getD (s.domain_index % domains.length) []) step
    with ⟨evs, res⟩
  simp only [hq]
  rcases res with e | _
  · rcases e with m | m | m | m | m <;> constructor <;> (try simp) <;> omega
  · constructor <;> (try simp) <;> omega

lemma dnsTick_inv (domains : List Str) (s : DnsRunState) (step : DnsStep)
    (h : s.successful_queries + s.failed_queries + s.timeout_queries = s.total_queries) :
    (dnsTick domains s step).successful_queries + (dnsTick domains s step).failed_queries +
        (dnsTick domains s step).timeout_queries
      = (dnsTick domains s step).total_queries := by
  by_cases hne : domains = []
  · simp [dnsTick, hne, h]
  · have hc := dnsTick_counts domains hne s step
    omega

lemma foldl_dns_inv (domains : List Str) (steps : List DnsStep) :
    ∀ s : DnsRunState,
      s.successful_queries + s.failed_queries + s.timeout_queries = s.total_queries →
      (steps.foldl (dnsTick domains) s).successful_queries +
          (steps.foldl (dnsTick domains) s).failed_queries +
          (steps.foldl (dnsTick domains) s).timeout_queries
        = (steps.foldl (dnsTick domains) s).total_queries := by
  induction steps with
  | nil => intro s h; simpa using h
  | cons a t ih =>
    intro s h
    exact ih _ (dnsTick_inv domains s a h)

end DnsStabilityTest

namespace NetworkJitterTest

lemma jitterTick_counts (targets : List Str) (hne : targets ≠ []) (s : JitterRunState)
    (step : PingStep) :
    (jitterTick targets s step).total_pings = s.total_pings + 1 ∧
      (jitterTick targets s step).successful_pings + (jitterTick targets s step).failed_pings +
          (jitterTick targets s step).timeout_pings
        = s.successful_pings + s.failed_pings + s.timeout_pings + 1 := by
  unfold jitterTick
  rw [if_neg hne]
  rcases hp : perform_ping step with e | pr
  · simp only [hp]
    constructor <;> (try simp) <;> omega
  · simp only [hp]
    obtain ⟨su, rt, er⟩ := pr
    cases su <;> cases rt <;> cases er <;>
      constructor <;> (try simp) <;> (try split) <;> (try simp) <;> omega

lemma jitterTick_inv (targets : List Str) (s : JitterRunState) (step : PingStep)
    (h : s.successful_pings + s.failed_pings + s.timeout_pings = s.total_pings) :
    (jitterTick targets s step).successful_pings + (jitterTick targets s step).failed_pings +
        (jitterTick targets s step).timeout_pings
      = (jitterTick targets s step).total_pings := by
  by_cases hne : targets = []
  · simp [jitterTick, hne, h]
  · have hc := jitterTick_counts targets hne s step
    omega

lemma foldl_jitter_inv (targets : List Str) (steps : List PingStep) :
    ∀ s : JitterRunState,
      s.successful_pings + s.failed_pings + s.timeout_pings = s.total_pings →
      (steps.foldl (jitterTick targets) s).successful_pings +
          (steps.foldl (jitterTick targets) s).failed_pings +
          (steps.foldl (jitterTick targets) s).timeout_pings
        = (steps.foldl (jitterTick targets) s).total_pings := by
  induction steps with
  | nil => intro s h; simpa using h
  | cons a t ih =>
    intro s h
    exact ih _ (jitterTick_inv targets s a h)

end NetworkJitterTest

namespace TcpStabilityTest

lemma tcpIterStep_inv (s : TcpRunState) (it : TcpIter)
    (h : s.successful_heartbeats + s.failed_heartbeats = s.total_heartbeats) :
    (tcpIterStep s it).successful_heartbeats + (tcpIterStep s it).failed_heartbeats
      = (tcpIterStep s it).total_heartbeats := by
  unfold tcpIterStep
  rcases it with ⟨rok, hb⟩
  rcases s with ⟨tot, su, fa, re, dr, strm, brk⟩
  cases strm <;> cases brk <;> cases rok <;> cases hb <;> (try simp_all) <;> omega

lemma foldl_tcp_inv (iters : List TcpIter) :
    ∀ s : TcpRunState,
      s.successful_heartbeats + s.failed_heartbeats = s.total_heartbeats →
      (iters.foldl tcpIterStep s).successful_heartbeats +
          (iters.foldl tcpIterStep s).failed_heartbeats
        = (iters.foldl tcpIterStep s).total_heartbeats := by
  induction iters with
  | nil => intro s h; simpa using h
  | cons a t ih =>
    intro s h
    exact ih _ (tcpIterStep_inv s a h)

end TcpStabilityTest

/-- C4: in the DNS and jitter probe loops every executed tick increments the
total counter by exactly one and the three outcome counters by exactly one in
total, so at loop exit successful + failed + timeout = total; and a TCP
stability run that returns a result satisfies
successful_heartbeats + failed_heartbeats = total_heartbeats. -/
theorem c4_counter_conservation :
    (∀ (domains : List Str) (s : DnsStabilityTest.DnsRunState)
        (step : DnsStabilityTest.DnsStep), domains ≠ [] →
      (DnsStabilityTest.dnsTick domains s step).total_queries = s.total_queries + 1 ∧
        (DnsStabilityTest.dnsTick domains s step).successful_queries +
            (DnsStabilityTest.dnsTick domains s step).failed_queries +
            (DnsStabilityTest.dnsTick domains s step).timeout_queries
          = s.successful_queries + s.failed_queries + s.timeout_queries + 1) ∧
    (∀ (targets : List Str) (s : NetworkJitterTest.JitterRunState)
        (step : NetworkJitterTest.PingStep), targets ≠ [] →
      (NetworkJitterTest.jitterTick targets s step).total_pings = s.total_pings + 1 ∧
        (NetworkJitterTest.jitterTick targets s step).successful_pings +
            (NetworkJitterTest.jitterTick targets s step).failed_pings +
            (NetworkJitterTest.jitterTick targets s step).timeout_pings
          = s.successful_pings + s.failed_pings + s.timeout_pings + 1) ∧
    (∀ (domains : List Str) (steps : List DnsStabilityTest.DnsStep),
      (DnsStabilityTest.run_dns_test domains steps).successful_queries +
          (DnsStabilityTest.run_dns_test domains steps).failed_queries +
          (DnsStabilityTest.run_dns_test domains steps).timeout_queries
        = (DnsStabilityTest.run_dns_test domains steps).total_queries) ∧
    (∀ (targets : List Str) (steps : List NetworkJitterTest.PingStep),
      (NetworkJitterTest.run_jitter_test targets steps).successful_pings +
          (NetworkJitterTest.run_jitter_test targets steps).failed_pings +
          (NetworkJitterTest.run_jitter_test targets steps).timeout_pings
        = (NetworkJitterTest.run_jitter_test targets steps).total_pings) ∧
    (∀ (init : Except NetworkTestError Unit) (iters : List TcpStabilityTest.TcpIter)
        (st : TcpStabilityTest.TcpRunState),
      TcpStabilityTest.run_stability_test init iters = .ok st →
      st.successful_heartbeats + st.failed_heartbeats = st.total_heartbeats) := by
  refine ⟨?_, ?_, ?_, ?_, ?_⟩
  · intro domains s step hne
    exact DnsStabilityTest.dnsTick_counts domains hne s step
  · intro targets s step hne
    exact NetworkJitterTest.jitterTick_counts targets hne s step
  · intro domains steps
    exact DnsStabilityTest.foldl_dns_inv domains steps _ rfl
  · intro targets steps
    exact NetworkJitterTest.foldl_jitter_inv targets steps _ rfl
  · intro init iters st hrun
    rcases init with e | u
    · exact absurd hrun (by simp [TcpStabilityTest.run_stability_test])
    · have : st = iters.foldl TcpStabilityTest.tcpIterStep TcpStabilityTest.initState := by
        simpa [TcpStabilityTest.run_stability_test] using hrun.symm
      rw [this]
      exact TcpStabilityTest.foldl_tcp_inv iters _ rfl

/-- Witness for C4: a one-tick DNS run (outer timeout), a one-tick jitter run,
and a two-iteration TCP run with one heartbeat failure. -/
theorem c4_counter_conservation_witness :
    ((DnsStabilityTest.run_dns_test ["a".data]
          [DnsStabilityTest.DnsStep.timeoutOuter []]).successful_queries +
        (DnsStabilityTest.run_dns_test ["a".data]
          [DnsStabilityTest.DnsStep.timeoutOuter []]).failed_queries +
        (DnsStabilityTest.run_dns_test ["a".data]
          [DnsStabilityTest.DnsStep.timeoutOuter []]).timeout_queries
      = (DnsStabilityTest.run_dns_test ["a".data]
          [DnsStabilityTest.DnsStep.timeoutOuter []]).total_queries) ∧
    ((NetworkJitterTest.run_jitter_test ["t".data]
          [NetworkJitterTest.PingStep.timeoutOuter]).successful_pings +
        (NetworkJitterTest.run_jitter_test ["t".data]
          [NetworkJitterTest.PingStep.timeoutOuter]).failed_pings +
        (NetworkJitterTest.run_jitter_test ["t".data]
          [NetworkJitterTest.PingStep.timeoutOuter]).timeout_pings
      = (NetworkJitterTest.run_jitter_test ["t".data]
          [NetworkJitterTest.PingStep.timeoutOuter]).total_pings) ∧
    (([⟨false, .ok 5⟩, ⟨false, .errInner⟩] :
          List TcpStabilityTest.TcpIter).foldl TcpStabilityTest.tcpIterStep
        TcpStabilityTest.initState).successful_heartbeats +
      (([⟨false, .ok 5⟩, ⟨false, .errInner⟩] :
          List TcpStabilityTest.TcpIter).foldl TcpStabilityTest.tcpIterStep
        TcpStabilityTest.initState).failed_heartbeats
      = (([⟨false, .ok 5⟩, ⟨false, .errInner⟩] :
          List TcpStabilityTest.TcpIter).foldl TcpStabilityTest.tcpIterStep
        TcpStabilityTest.initState).total_heartbeats :=
  ⟨c4_counter_conservation.2.2.1 ["a".data] [DnsStabilityTest.DnsStep.timeoutOuter []],
    c4_counter_conservation.2.2.2.1 ["t".data] [NetworkJitterTest.PingStep.timeoutOuter],
    c4_counter_conservation.2.2.2.2 (.ok ()) [⟨false, .ok 5⟩, ⟨false, .errInner⟩] _ rfl⟩

/-! ### Relay-count helpers (claim C5) -/

namespace DnsStabilityTest

lemma dns_query_opens_one (domain : Str) (st : DnsInner) :
    (dns_query_via_proxy domain st).1.count DnsEvent.udpAssociate = 1 := by
  rcases st with e | e | e | bytes <;>
    first
      | (simp only [dns_query_via_proxy]; decide)
      | (rcases hc : create_dns_query_packet domain with pe | u <;>
          simp only [dns_query_via_proxy, hc] <;> decide)

lemma dnsTick_events (domains : List Str) (hne : domains ≠ []) (s : DnsRunState)
    (step : DnsStep) :
    (dnsTick domains s step).events =
      s.events ++
        (perform_dns_query (domains.getD (s.domain_index % domains.length) []) step).1 := by
  unfold dnsTick
  rw [if_neg hne]
  rcases hq : perform_dns_query (domains.getD (s.domain_index % domains.length) []) step
    with ⟨evs, res⟩
  simp only [hq]
  rcases res with e | _
  · rcases e with m | m | m | m | m <;> simp
  · simp

lemma foldl_relay_count (domains : List Str) (hne : domains ≠ []) :
    ∀ steps : List DnsStep, (∀ st ∈ steps, ∃ i, st = DnsStep.inner i) →
      ∀ s : DnsRunState,
        (steps.foldl (dnsTick domains) s).events.count DnsEvent.udpAssociate
          = s.events.count DnsEvent.udpAssociate + steps.length := by
  intro steps
  induction steps with
  | nil => intro _ s; simp
  | cons a t ih =>
    intro hinner s
    obtain ⟨i, rfl⟩ := hinner a (List.mem_cons_self a t)
    have h1 : (dnsTick domains s (DnsStep.inner i)).events.count DnsEvent.udpAssociate
        = s.events.count DnsEvent.udpAssociate + 1 := by
      rw [dnsTick_events domains hne s (DnsStep.inner i), List.count_append]
      have : (perform_dns_query (domains.getD (s.domain_index % domains.length) [])
          (DnsStep.inner i)).1 = (dns_query_via_proxy
            (domains.getD (s.domain_index % domains.length) []) i).1 := rfl
      rw [this, dns_query_opens_one]
    have h2 := ih (fun st hst => hinner st (List.mem_cons_of_mem _ hst))
      (dnsTick domains s (DnsStep.inner i))
    simp only [List.foldl_cons, List.length_cons]
    rw [h2, h1]
    omega

end DnsStabilityTest

/-- C5 counterexample: a two-tick DNS run (both queries completed normally
against domain "a") performs two UDP ASSOCIATEs, not the single one the claim
asserts for a whole run. -/
theorem c5_counterexample :
    DnsStabilityTest.relayOpens
        (DnsStabilityTest.run_dns_test ["a".data]
          [DnsStabilityTest.DnsStep.inner (.response (List.replicate 12 0)),
            DnsStabilityTest.DnsStep.inner (.response (List.replicate 12 0))]) = 2 ∧
      DnsStabilityTest.relayOpens
        (DnsStabilityTest.run_dns_test ["a".data]
          [DnsStabilityTest.DnsStep.inner (.response (List.replicate 12 0)),
            DnsStabilityTest.DnsStep.inner (.response (List.replicate 12 0))]) ≠ 1 := by
  decide

/-- C5 amended: the DNS probe opens a fresh UdpRelay for every query, not one
per run: dns_query_via_proxy calls client.udp_associate() on every invocation
(exactly one UDP ASSOCIATE per completed query), so a run whose ticks all ran
their query (no outer 5-second timeout) opens exactly as many relays as it
made query attempts. -/
theorem c5_relay_per_query :
    (∀ (domain : Str) (st : DnsStabilityTest.DnsInner),
      (DnsStabilityTest.dns_query_via_proxy domain st).1.count
        DnsStabilityTest.DnsEvent.udpAssociate = 1) ∧
    (∀ (domains : List Str) (steps : List DnsStabilityTest.DnsStep),
      domains ≠ [] → (∀ st ∈ steps, ∃ i, st = DnsStabilityTest.DnsStep.inner i) →
      DnsStabilityTest.relayOpens (DnsStabilityTest.run_dns_test domains steps)
        = steps.length) := by
  constructor
  · exact DnsStabilityTest.dns_query_opens_one
  · intro domains steps hne hinner
    have h := DnsStabilityTest.foldl_relay_count domains hne steps hinner ⟨0, 0, 0, 0, 0, []⟩
    simpa [DnsStabilityTest.run_dns_test, DnsStabilityTest.relayOpens] using h

/-- Witness for C5 (amended): a single completed query against domain "a"
opens exactly one relay. -/
theorem c5_relay_per_query_witness :
    (DnsStabilityTest.dns_query_via_proxy "a".data
        (.response (List.replicate 12 0))).1.count
      DnsStabilityTest.DnsEvent.udpAssociate = 1 ∧
    DnsStabilityTest.relayOpens
        (DnsStabilityTest.run_dns_test ["a".data]
          [DnsStabilityTest.DnsStep.inner (.response (List.replicate 12 0))]) = 1 :=
  ⟨c5_relay_per_query.1 "a".data (.response (List.replicate 12 0)),
    c5_relay_per_query.2 ["a".data]
      [DnsStabilityTest.DnsStep.inner (.response (List.replicate 12 0))] (by decide)
      (by
        intro st hst
        rw [List.mem_singleton] at hst
        subst hst
        exact ⟨_, rfl⟩)⟩

/-! ### Error-classification helpers (claim C7) -/

namespace DnsStabilityTest

lemma dnsTick_classify (domains : List Str) (hne : domains ≠ []) (s : DnsRunState)
    (step : DnsStep) :
    (dnsTick domains s step).timeout_queries
        = s.timeout_queries +
          (match (perform_dns_query (domains.getD (s.domain_index % domains.length) [])
              step).2 with
            | .error e => if e.isTimeoutKind then 1 else 0
            | .ok _ => 0) ∧
      (dnsTick domains s step).failed_queries
        = s.failed_queries +
          (match (perform_dns_query (domains.getD (s.domain_index % domains.length) [])
              step).2 with
            | .error e => if e.isTimeoutKind then 0 else 1
            | .ok _ => 0) := by
  unfold dnsTick
  rw [if_neg hne]
  rcases hq : perform_dns_query (domains.getD (s.domain_index % domains.length) []) step
    with ⟨evs, res⟩
  simp only [hq]
  rcases res with e | _
  · rcases e with m | m | m | m | m <;>
      simp [NetworkTestError.isTimeoutKind]
  · simp

end DnsStabilityTest

namespace NetworkJitterTest

lemma jitterTick_classify (targets : List Str) (hne : targets ≠ []) (s : JitterRunState)
    (step : PingStep) (err : Str)
    (hstep : perform_ping step = .ok ⟨false, none, some err⟩) :
    (jitterTick targets s step).timeout_pings
        = s.timeout_pings + (if containsSub err "timeout".data then 1 else 0) ∧
      (jitterTick targets s step).failed_pings
        = s.failed_pings + (if containsSub err "timeout".data then 0 else 1) := by
  unfold jitterTick
  rw [if_neg hne]
  simp only [hstep]
  split <;> simp

end NetworkJitterTest

/-- C7 counterexample: the jitter probe classifies failures by the substring
"timeout" in the error display string, not by the error kind.  The value
below is reachable: for a ping target such as "h:timeout", parse_address
inside Socks5Client::connect fails with Config("Invalid port: timeout")
(socks5.rs:371-373), tcp_ping_via_proxy wraps that as a Connection-kind error
(network_jitter.rs:261-263), yet the run loop counts the ping in
timeout_pings because the display string contains "timeout". -/
theorem c7_counterexample :
    NetworkTestError.isTimeoutKind
        (NetworkTestError.connection ("Failed to connect to target: ".data ++
          NetworkTestError.display (.config "Invalid port: timeout".data))) = false ∧
      NetworkJitterTest.tcp_ping_via_proxy
          (.connectFail (.config "Invalid port: timeout".data))
        = .error (.connection ("Failed to connect to target: ".data ++
            NetworkTestError.display (.config "Invalid port: timeout".data))) ∧
      (NetworkJitterTest.run_jitter_test ["t".data]
          [NetworkJitterTest.PingStep.inner
            (.connectFail (.config "Invalid port: timeout".data)) 0]).timeout_pings = 1 ∧
      (NetworkJitterTest.run_jitter_test ["t".data]
          [NetworkJitterTest.PingStep.inner
            (.connectFail (.config "Invalid port: timeout".data)) 0]).failed_pings = 0 := by
  refine ⟨rfl, rfl, ?_, ?_⟩ <;> decide

/-- C7 amended: the DNS probe counts a failed query in timeout_queries exactly
when the error kind is Timeout (and in failed_queries otherwise), while the
jitter probe counts a failed ping in timeout_pings exactly when the error
MESSAGE contains the substring "timeout" (the 5-second outer timeout produces
the message "timeout"), and in failed_pings otherwise. -/
theorem c7_error_classification :
    (∀ (domains : List Str) (s : DnsStabilityTest.DnsRunState)
        (step : DnsStabilityTest.DnsStep), domains ≠ [] →
      (DnsStabilityTest.dnsTick domains s step).timeout_queries
          = s.timeout_queries +
            (match (DnsStabilityTest.perform_dns_query
                (domains.getD (s.domain_index % domains.length) []) step).2 with
              | .error e => if e.isTimeoutKind then 1 else 0
              | .ok _ => 0) ∧
        (DnsStabilityTest.dnsTick domains s step).failed_queries
          = s.failed_queries +
            (match (DnsStabilityTest.perform_dns_query
                (domains.getD (s.domain_index % domains.length) []) step).2 with
              | .error e => if e.isTimeoutKind then 0 else 1
              | .ok _ => 0)) ∧
    (∀ (targets : List Str) (s : NetworkJitterTest.JitterRunState)
        (step : NetworkJitterTest.PingStep) (err : Str), targets ≠ [] →
      NetworkJitterTest.perform_ping step = .ok ⟨false, none, some err⟩ →
      (NetworkJitterTest.jitterTick targets s step).timeout_pings
          = s.timeout_pings + (if containsSub err "timeout".data then 1 else 0) ∧
        (NetworkJitterTest.jitterTick targets s step).failed_pings
          = s.failed_pings + (if containsSub err "timeout".data then 0 else 1)) := by
  constructor
  · intro domains s step hne
    exact DnsStabilityTest.dnsTick_classify domains hne s step
  · intro targets s step err hne hstep
    exact NetworkJitterTest.jitterTick_classify targets hne s step err hstep

/-- Witness for C7 (amended): a DNS outer timeout lands in timeout_queries;
a jitter inner read-timeout error (message "Timeout error: Response timeout",
which contains "timeout") lands in timeout_pings. -/
theorem c7_error_classification_witness :
    ((DnsStabilityTest.dnsTick ["a".data] ⟨0, 0, 0, 0, 0, []⟩
          (DnsStabilityTest.DnsStep.timeoutOuter [])).timeout_queries
        = 0 + (match (DnsStabilityTest.perform_dns_query
            (["a".data].getD (0 % (["a".data] : List Str).length) [])
            (DnsStabilityTest.DnsStep.timeoutOuter [])).2 with
          | .error e => if e.isTimeoutKind then 1 else 0
          | .ok _ => 0) ∧
      (DnsStabilityTest.dnsTick ["a".data] ⟨0, 0, 0, 0, 0, []⟩
          (DnsStabilityTest.DnsStep.timeoutOuter [])).failed_queries
        = 0 + (match (DnsStabilityTest.perform_dns_query
            (["a".data].getD (0 % (["a".data] : List Str).length) [])
            (DnsStabilityTest.DnsStep.timeoutOuter [])).2 with
          | .error e => if e.isTimeoutKind then 0 else 1
          | .ok _ => 0)) ∧
    ((NetworkJitterTest.jitterTick ["t".data] ⟨0, 0, 0, 0, 0, []⟩
          (NetworkJitterTest.PingStep.inner .readTimeout 0)).timeout_pings
        = 0 + (if containsSub (NetworkTestError.timeout "Response timeout".data).display
            "timeout".data then 1 else 0) ∧
      (NetworkJitterTest.jitterTick ["t".data] ⟨0, 0, 0, 0, 0, []⟩
          (NetworkJitterTest.PingStep.inner .readTimeout 0)).failed_pings
        = 0 + (if containsSub (NetworkTestError.timeout "Response timeout".data).display
            "timeout".data then 0 else 1)) :=
  ⟨c7_error_classification.1 ["a".data] ⟨0, 0, 0, 0, 0, []⟩
      (DnsStabilityTest.DnsStep.timeoutOuter []) (by decide),
    c7_error_classification.2 ["t".data] ⟨0, 0, 0, 0, 0, []⟩
      (NetworkJitterTest.PingStep.inner .readTimeout 0)
      (NetworkTestError.timeout "Response timeout".data).display (by decide) rfl⟩

/-! ### TCP-stability state-machine lemmas (claim C10) -/

namespace TcpStabilityTest

lemma tcpIterStep_no_reconnect (s : TcpRunState) (it : TcpIter)
    (h : s.connection_broken = false) :
    (tcpIterStep s it).reconnections = s.reconnections ∧
      (tcpIterStep s it).connection_drops = s.connection_drops := by
  unfold tcpIterStep
  rcases it with ⟨rok, hb⟩
  rcases s with ⟨tot, su, fa, re, dr, strm, brk⟩
  cases brk
  · cases strm <;> cases hb <;> simp
  · cases h

lemma tcpIterStep_reconnect (s : TcpRunState) (it : TcpIter)
    (hs : s.streamSome = false) (hb : s.connection_broken = true)
    (hr : it.reconnectOk = true) :
    (tcpIterStep s it).reconnections = s.reconnections + 1 ∧
      (tcpIterStep s it).connection_drops = s.connection_drops + 1 := by
  unfold tcpIterStep
  rcases it with ⟨rok, hb'⟩
  rcases s with ⟨tot, su, fa, re, dr, strm, brk⟩
  simp only at hs hb hr
  subst hs hb hr
  cases hb' <;> simp

lemma tcpIterStep_broken_of_hb (s : TcpRunState) (it : TcpIter)
    (hs : s.streamSome = true) (hb : s.connection_broken = false) :
    (tcpIterStep s it).connection_broken = !it.hb.isOk := by
  unfold tcpIterStep
  rcases it with ⟨rok, hb'⟩
  rcases s with ⟨tot, su, fa, re, dr, strm, brk⟩
  simp only at hs hb
  subst hs hb
  cases hb' <;> simp [HbOutcome.isOk]

lemma tcpIterStep_drops_eq (s : TcpRunState) (it : TcpIter)
    (h : s.reconnections = s.connection_drops) :
    (tcpIterStep s it).reconnections = (tcpIterStep s it).connection_drops := by
  unfold tcpIterStep
  rcases it with ⟨rok, hb⟩
  rcases s with ⟨tot, su, fa, re, dr, strm, brk⟩
  simp only at h
  subst h
  cases strm <;> cases brk <;> cases rok <;> cases hb <;> simp

lemma foldl_tcp_drops_eq (iters : List TcpIter) :
    ∀ s : TcpRunState, s.reconnections = s.connection_drops →
      (iters.foldl tcpIterStep s).reconnections
        = (iters.foldl tcpIterStep s).connection_drops := by
  induction iters with
  | nil => intro s h; simpa using h
  | cons a t ih =>
    intro s h
    exact ih _ (tcpIterStep_drops_eq s a h)

end TcpStabilityTest

/-- C10: a failed initial CONNECT makes the TCP-stability run return a
Connection error immediately, so no result (and in particular no
reconnection count or ConnectionDrop record) is produced; reconnect attempts
happen only while the connection is broken, which a state with an intact
stream enters exactly when a heartbeat fails; a successful reconnect
increments reconnections and appends one ConnectionDrop record, and over any
run from the initial connected state the reconnection count equals the
number of drop records. -/
theorem c10_initial_connect_fatal :
    (∀ (e : NetworkTestError) (iters : List TcpStabilityTest.TcpIter),
      TcpStabilityTest.run_stability_test (.error e) iters
        = .error (.connection
            ("Failed to establish initial connection: ".data ++ e.display))) ∧
    (∀ (s : TcpStabilityTest.TcpRunState) (it : TcpStabilityTest.TcpIter),
      s.connection_broken = false →
      (TcpStabilityTest.tcpIterStep s it).reconnections = s.reconnections ∧
        (TcpStabilityTest.tcpIterStep s it).connection_drops = s.connection_drops) ∧
    (∀ (s : TcpStabilityTest.TcpRunState) (it : TcpStabilityTest.TcpIter),
      s.streamSome = false → s.connection_broken = true → it.reconnectOk = true →
      (TcpStabilityTest.tcpIterStep s it).reconnections = s.reconnections + 1 ∧
        (TcpStabilityTest.tcpIterStep s it).connection_drops = s.connection_drops + 1) ∧
    (∀ (s : TcpStabilityTest.TcpRunState) (it : TcpStabilityTest.TcpIter),
      s.streamSome = true → s.connection_broken = false →
      (TcpStabilityTest.tcpIterStep s it).connection_broken = !it.hb.isOk) ∧
    (∀ iters : List TcpStabilityTest.TcpIter,
      (iters.foldl TcpStabilityTest.tcpIterStep TcpStabilityTest.initState).reconnections
        = (iters.foldl TcpStabilityTest.tcpIterStep
            TcpStabilityTest.initState).connection_drops) := by
  refine ⟨?_, ?_, ?_, ?_, ?_⟩
  · intro e iters
    rfl
  · exact TcpStabilityTest.tcpIterStep_no_reconnect
  · exact TcpStabilityTest.tcpIterStep_reconnect
  · exact TcpStabilityTest.tcpIterStep_broken_of_hb
  · intro iters
    exact TcpStabilityTest.foldl_tcp_drops_eq iters _ rfl

/-- Witness for C10: a concrete failed initial connect, a no-reconnect step
from the initial state, a successful reconnect from a broken state, and a
heartbeat failure breaking the connection. -/
theorem c10_initial_connect_fatal_witness :
    (TcpStabilityTest.run_stability_test
        (.error (.timeout "Failed to connect to SOCKS5 proxy".data)) []
      = .error (.connection ("Failed to establish initial connection: ".data ++
          (NetworkTestError.timeout "Failed to connect to SOCKS5 proxy".data).display))) ∧
    ((TcpStabilityTest.tcpIterStep TcpStabilityTest.initState
          ⟨true, .ok 3⟩).reconnections = TcpStabilityTest.initState.reconnections ∧
      (TcpStabilityTest.tcpIterStep TcpStabilityTest.initState
          ⟨true, .ok 3⟩).connection_drops = TcpStabilityTest.initState.connection_drops) ∧
    ((TcpStabilityTest.tcpIterStep ⟨3, 2, 1, 0, 0, false, true⟩
          ⟨true, .ok 3⟩).reconnections = (0 : Nat) + 1 ∧
      (TcpStabilityTest.tcpIterStep ⟨3, 2, 1, 0, 0, false, true⟩
          ⟨true, .ok 3⟩).connection_drops = (0 : Nat) + 1) ∧
    (TcpStabilityTest.tcpIterStep TcpStabilityTest.initState
        ⟨false, .errTimeout⟩).connection_broken
      = !(TcpStabilityTest.HbOutcome.errTimeout).isOk :=
  ⟨c10_initial_connect_fatal.1 (.timeout "Failed to connect to SOCKS5 proxy".data) [],
    c10_initial_connect_fatal.2.1 TcpStabilityTest.initState ⟨true, .ok 3⟩ rfl,
    c10_initial_connect_fatal.2.2.1 ⟨3, 2, 1, 0, 0, false, true⟩ ⟨true, .ok 3⟩ rfl rfl rfl,
    c10_initial_connect_fatal.2.2.2.1 TcpStabilityTest.initState ⟨false, .errTimeout⟩ rfl rfl⟩

/-! ### Concurrent-batch lemmas (claim C6) -/

namespace ConnectionPerfTest

lemma max_concurrent_eq_some (results : List ConcurrentTestResult) {m : Nat}
    (h : max_concurrent_successful results = some m) :
    (∃ r ∈ results, r.concurrent_level = m ∧ r.successful_connections = m) ∧
      ∀ r ∈ results, r.successful_connections = r.concurrent_level →
        r.concurrent_level ≤ m := by
  unfold max_concurrent_successful at h
  set L := (results.filter fun r =>
      decide (r.successful_connections = r.concurrent_level)).map
      fun r => r.concurrent_level with hL
  have hiff : L.max? = some m ↔ m ∈ L ∧ ∀ b ∈ L, b ≤ m :=
    List.max?_eq_some_iff Nat.le_refl (fun a b => by omega) (fun a b c => by omega)
  rw [hiff] at h
  obtain ⟨hmem, hmax⟩ := h
  constructor
  · rcases List.mem_map.mp hmem with ⟨r, hr, rfl⟩
    rcases List.mem_filter.mp hr with ⟨hrr, hok⟩
    exact ⟨r, hrr, rfl, of_decide_eq_true hok⟩
  · intro r hr hok
    exact hmax _ (List.mem_map.mpr ⟨r, List.mem_filter.mpr ⟨hr, decide_eq_true hok⟩, rfl⟩)

end ConnectionPerfTest

/-- C6: the concurrent phase runs one batch for each level L of {2,5,10,20,50}
with L ≤ total_connections, recording successes out of L (failed = L −
successes); the derived maximum reliable concurrency is the greatest tested L
whose successes equal L; and the concurrent score component is
min(100, max/50·100) when such an L exists and 0 otherwise. -/
theorem c6_concurrent_levels (total : Nat) (success : Nat → Nat → Bool) :
    ((ConnectionPerfTest.run_concurrent_tests total success).map
        (fun r => r.concurrent_level)
      = ConnectionPerfTest.concurrent_levels.filter fun L => decide (L ≤ total)) ∧
    (∀ r ∈ ConnectionPerfTest.run_concurrent_tests total success,
      r.successful_connections ≤ r.concurrent_level ∧
        r.failed_connections = r.concurrent_level - r.successful_connections) ∧
    (∀ m, ConnectionPerfTest.max_concurrent_successful
        (ConnectionPerfTest.run_concurrent_tests total success) = some m →
      ((∃ r ∈ ConnectionPerfTest.run_concurrent_tests total success,
          r.concurrent_level = m ∧ r.successful_connections = m) ∧
        ∀ r ∈ ConnectionPerfTest.run_concurrent_tests total success,
          r.successful_connections = r.concurrent_level → r.concurrent_level ≤ m) ∧
        ConnectionPerfTest.concurrent_score
            (ConnectionPerfTest.run_concurrent_tests total success)
          = min 100 ((m : ℚ) / 50 * 100)) ∧
    (ConnectionPerfTest.max_concurrent_successful
        (ConnectionPerfTest.run_concurrent_tests total success) = none →
      ConnectionPerfTest.concurrent_score
        (ConnectionPerfTest.run_concurrent_tests total success) = 0) := by
  refine ⟨?_, ?_, ?_, ?_⟩
  · unfold ConnectionPerfTest.run_concurrent_tests
    rw [List.map_map]
    exact List.map_id'' (fun L => rfl) _
  · intro r hr
    rcases List.mem_map.mp hr with ⟨L, hL, rfl⟩
    refine ⟨?_, rfl⟩
    calc ((List.range L).filter fun i => success L i).length
        ≤ (List.range L).length := List.length_filter_le _ _
      _ = L := List.length_range L
  · intro m hm
    refine ⟨ConnectionPerfTest.max_concurrent_eq_some _ hm, ?_⟩
    unfold ConnectionPerfTest.concurrent_score
    rw [hm]
    exact min_comm _ _
  · intro hm
    unfold ConnectionPerfTest.concurrent_score
    rw [hm]

/-- Witness for C6: total 20 with every attempt at levels up to 10 succeeding
and all attempts at level 20 failing; levels tested are {2,5,10,20} and the
max reliable level is 10. -/
theorem c6_concurrent_levels_witness :
    ((ConnectionPerfTest.run_concurrent_tests 20 (fun L _ => decide (L ≤ 10))).map
        (fun r => r.concurrent_level)
      = ConnectionPerfTest.concurrent_levels.filter fun L => decide (L ≤ 20)) ∧
      (((∃ r ∈ ConnectionPerfTest.run_concurrent_tests 20 (fun L _ => decide (L ≤ 10)),
            r.concurrent_level = 10 ∧ r.successful_connections = 10) ∧
          ∀ r ∈ ConnectionPerfTest.run_concurrent_tests 20 (fun L _ => decide (L ≤ 10)),
            r.successful_connections = r.concurrent_level → r.concurrent_level ≤ 10) ∧
        ConnectionPerfTest.concurrent_score
            (ConnectionPerfTest.run_concurrent_tests 20 (fun L _ => decide (L ≤ 10)))
          = min 100 ((10 : ℚ) / 50 * 100)) :=
  ⟨(c6_concurrent_levels 20 (fun L _ => decide (L ≤ 10))).1,
    (c6_concurrent_levels 20 (fun L _ => decide (L ≤ 10))).2.2.1 10 (by decide)⟩

/-! ## SOCKS5 handshake (src/socks5.rs) -/

/-- The credential configuration of `Socks5Client` (proxy address and timeout
play no role in the handshake logic and are omitted). -/
structure Socks5Client where
  username : Option Str
  password : Option Str

namespace Socks5Client

/-- The method byte M chosen at src/socks5.rs:101-105. -/
def auth_method (c : Socks5Client) : Nat :=
  if c.username.isSome && c.password.isSome then 0x02 else 0x00

/-- The three greeting bytes written at src/socks5.rs:107-108. -/
def handshakeRequest (c : Socks5Client) : List Nat :=
  [0x05, 0x01, c.auth_method]

/-- The RFC 1929 sub-negotiation request built at src/socks5.rs:153-158
(version byte 0x01, length-prefixed username, length-prefixed password;
`len() as u8` is a narrowing cast, hence the % 256). -/
def auth_request (username password : Str) : List Nat :=
  [0x01, username.length % 256] ++ strBytes username ++
    [password.length % 256] ++ strBytes password

/-- Embeds `Socks5Client::authenticate` (src/socks5.rs:143-179), given the
two reply bytes of the proxy: requires credentials, reply version byte 0x01
and status byte 0x00. -/
def authenticate (c : Socks5Client) (authReply : Nat × Nat) :
    Except NetworkTestError Unit :=
  match c.username, c.password with
  | none, _ => .error (.socks5 "Username required for authentication".data)
  | some _, none => .error (.socks5 "Password required for authentication".data)
  | some _, some _ =>
      if authReply.1 ≠ 0x01 then
        .error (.socks5 "Invalid authentication response version".data)
      else if authReply.2 ≠ 0x00 then
        .error (.socks5 "Authentication failed".data)
      else .ok ()

/-- Embeds `Socks5Client::socks5_handshake` (src/socks5.rs:98-141), given the
two reply bytes of the proxy and (when method 0x02 is selected) the two
sub-negotiation reply bytes: version byte must be 0x05, then dispatch on the
method byte 0x00 / 0x02 / 0xFF / other. -/
def socks5_handshake (c : Socks5Client) (reply : Nat × Nat) (authReply : Nat × Nat) :
    Except NetworkTestError Unit :=
  if reply.1 ≠ 0x05 then
    .error (.socks5 "Invalid SOCKS version in response".data)
  else if reply.2 = 0x00 then .ok ()
  else if reply.2 = 0x02 then c.authenticate authReply
  else if reply.2 = 0xFF then
    .error (.socks5 "No acceptable authentication methods".data)
  else
    .error (.socks5 ("Unknown authentication method: ".data ++ natRepr reply.2))

end Socks5Client

/-- C2: the handshake greeting is exactly {0x05, 0x01, M} with M = 0x02 iff
both a username and a password are configured (else M = 0x00); any reply
whose first byte is not 0x05 yields a Socks5 error; reply (0x05, 0x00)
succeeds immediately; reply method 0x02 delegates to the RFC 1929
sub-negotiation, whose request is version 0x01 followed by the
length-prefixed username and password and which succeeds exactly on reply
(0x01, 0x00); reply method 0xFF and every other method value yield a Socks5
error. -/
theorem c2_handshake :
    (∀ c : Socks5Client,
      c.handshakeRequest = [0x05, 0x01, 0x02] ∨ c.handshakeRequest = [0x05, 0x01, 0x00]) ∧
    (∀ c : Socks5Client,
      c.handshakeRequest = [0x05, 0x01, 0x02] ↔
        (c.username.isSome = true ∧ c.password.isSome = true)) ∧
    (∀ (c : Socks5Client) (r a : Nat × Nat), r.1 ≠ 0x05 →
      ∃ msg, c.socks5_handshake r a = .error (.socks5 msg)) ∧
    (∀ (c : Socks5Client) (a : Nat × Nat), c.socks5_handshake (0x05, 0x00) a = .ok ()) ∧
    (∀ (c : Socks5Client) (a : Nat × Nat),
      c.socks5_handshake (0x05, 0x02) a = c.authenticate a) ∧
    (∀ (u p : Str) (a : Nat × Nat),
      Socks5Client.auth_request u p =
          [0x01, u.length % 256] ++ strBytes u ++ [p.length % 256] ++ strBytes p ∧
        ((Socks5Client.mk (some u) (some p)).authenticate a = .ok () ↔ a = (0x01, 0x00))) ∧
    (∀ (c : Socks5Client) (a : Nat × Nat),
      ∃ msg, c.socks5_handshake (0x05, 0xFF) a = .error (.socks5 msg)) ∧
    (∀ (c : Socks5Client) (r a : Nat × Nat),
      r.1 = 0x05 → r.2 ≠ 0x00 → r.2 ≠ 0x02 → r.2 ≠ 0xFF →
      ∃ msg, c.socks5_handshake r a = .error (.socks5 msg)) := by
  refine ⟨?_, ?_, ?_, ?_, ?_, ?_, ?_, ?_⟩
  · intro c
    by_cases h : c.username.isSome && c.password.isSome
    · left
      simp [Socks5Client.handshakeRequest, Socks5Client.auth_method, h]
    · right
      simp [Socks5Client.handshakeRequest, Socks5Client.auth_method, h]
  · intro c
    constructor
    · intro h
      by_cases hb : c.username.isSome && c.password.isSome
      · exact ⟨(Bool.and_eq_true _ _).mp hb |>.1, (Bool.and_eq_true _ _).mp hb |>.2⟩
      · simp [Socks5Client.handshakeRequest, Socks5Client.auth_method, hb] at h
    · intro ⟨h1, h2⟩
      simp [Socks5Client.handshakeRequest, Socks5Client.auth_method, h1, h2]
  · intro c r a hr
    refine ⟨"Invalid SOCKS version in response".data, ?_⟩
    simp [Socks5Client.socks5_handshake, hr]
  · intro c a
    simp [Socks5Client.socks5_handshake]
  · intro c a
    simp [Socks5Client.socks5_handshake]
  · intro u p a
    refine ⟨rfl, ?_⟩
    rcases a with ⟨a1, a2⟩
    unfold Socks5Client.authenticate
    constructor
    · intro h
      by_cases h1 : a1 ≠ 0x01
      · simp [h1] at h
      · by_cases h2 : a2 ≠ 0x00
        · simp [h1, h2] at h
        · simp only [not_not] at h1 h2
          simp [h1, h2]
    · intro h
      rcases Prod.mk.injEq .. ▸ h with ⟨rfl, rfl⟩
      simp
  · intro c a
    refine ⟨"No acceptable authentication methods".data, ?_⟩
    simp [Socks5Client.socks5_handshake]
  · intro c r a h5 h0 h2 hff
    refine ⟨"Unknown authentication method: ".data ++ natRepr r.2, ?_⟩
    simp [Socks5Client.socks5_handshake, h5, h0, h2, hff]

/-- Witness for C2 at a client with credentials "u"/"p" and concrete replies. -/
theorem c2_handshake_witness :
    ((Socks5Client.mk (some "u".data) (some "p".data)).handshakeRequest = [0x05, 0x01, 0x02] ∨
      (Socks5Client.mk (some "u".data) (some "p".data)).handshakeRequest
        = [0x05, 0x01, 0x00]) ∧
    (∃ msg, (Socks5Client.mk none none).socks5_handshake (0x04, 0x00) (0, 0)
      = .error (.socks5 msg)) ∧
    ((Socks5Client.mk none none).socks5_handshake (0x05, 0x00) (0, 0) = .ok ()) ∧
    ((Socks5Client.mk (some "u".data) (some "p".data)).authenticate (0x01, 0x00) = .ok () ↔
      ((0x01, 0x00) : Nat × Nat) = (0x01, 0x00)) ∧
    (∃ msg, (Socks5Client.mk none none).socks5_handshake (0x05, 0x01) (0, 0)
      = .error (.socks5 msg)) :=
  ⟨c2_handshake.1 (Socks5Client.mk (some "u".data) (some "p".data)),
    c2_handshake.2.2.1 (Socks5Client.mk none none) (0x04, 0x00) (0, 0) (by decide),
    c2_handshake.2.2.2.1 (Socks5Client.mk none none) (0, 0),
    (c2_handshake.2.2.2.2.2.1 "u".data "p".data (0x01, 0x00)).2,
    c2_handshake.2.2.2.2.2.2.2 (Socks5Client.mk none none) (0x05, 0x01) (0, 0) rfl
      (by decide) (by decide) (by decide)⟩

/-! ## IP address parsing and display (Rust std, as used by src/socks5.rs)

`host.parse::<std::net::IpAddr>()` and the Display impls of
`Ipv4Addr`/`Ipv6Addr` are part of the behaviour of
`Socks5UdpRelay::encapsulate_udp_packet` / `recv_from`, so they are embedded
here following `core::net::parser` and `core::net::ip_addr` of the Rust
standard library.  The byte-oriented parser state is a remaining-input list;
`read_atomically` backtracking is implicit in the pure encoding. -/

structure Ipv4Addr where
  o0 : Nat
  o1 : Nat
  o2 : Nat
  o3 : Nat
deriving DecidableEq

inductive IpAddr where
  | v4 (a : Ipv4Addr)
  | v6 (segs : List Nat)
deriving DecidableEq

/-- Rust `char::to_digit(10)`. -/
def charToDigitDec (c : Char) : Option Nat :=
  if 48 ≤ c.toNat ∧ c.toNat ≤ 57 then some (c.toNat - 48) else none

/-- Rust `char::to_digit(16)`. -/
def charToDigitHex (c : Char) : Option Nat :=
  if 48 ≤ c.toNat ∧ c.toNat ≤ 57 then some (c.toNat - 48)
  else if 97 ≤ c.toNat ∧ c.toNat ≤ 102 then some (c.toNat - 87)
  else if 65 ≤ c.toNat ∧ c.toNat ≤ 70 then some (c.toNat - 55)
  else none

/-- Rust `Parser::read_number(radix, max_digits, allow_zero_prefix)` over a
`cap`-bounded unsigned type.  The Rust loop consumes the maximal digit run
and fails on an intermediate checked-arithmetic overflow; since the
accumulated value only grows, that is equivalent to failing when the value
of the whole run exceeds `cap`. -/
def readNumber (toDigit : Char → Option Nat) (radix maxDigits cap : Nat)
    (allowZeroPrefix : Bool) (cs : Str) : Option (Nat × Str) :=
  let run := cs.takeWhile fun c => (toDigit c).isSome
  let rest := cs.dropWhile fun c => (toDigit c).isSome
  if run.length = 0 then none
  else if maxDigits < run.length then none
  else
    let v := run.foldl (fun acc c => radix * acc + (toDigit c).getD 0) 0
    if cap < v then none
    else if ¬allowZeroPrefix ∧ run.headD ' ' = '0' ∧ 1 < run.length then none
    else some (v, rest)

/-- Rust `Parser::read_given_char`. -/
def readGivenChar (c : Char) (cs : Str) : Option Str :=
  match cs with
  | [] => none
  | x :: rest => if x = c then some rest else none

/-- Rust `Parser::read_separator(sep, index, inner)`: require the separator
before every group except the first. -/
def readSeparator (sep : Char) (i : Nat) (inner : Str → Option (α × Str)) (cs : Str) :
    Option (α × Str) :=
  if i = 0 then inner cs
  else
    match readGivenChar sep cs with
    | none => none
    | some cs1 => inner cs1

/-- Rust `Parser::read_ipv4_addr`: four dot-separated decimal groups, each at
most 3 digits, value at most 255, no zero prefix. -/
def readIpv4Addr (cs : Str) : Option (Ipv4Addr × Str) := do
  let (g0, cs) ← readNumber charToDigitDec 10 3 255 false cs
  let cs ← readGivenChar '.' cs
  let (g1, cs) ← readNumber charToDigitDec 10 3 255 false cs
  let cs ← readGivenChar '.' cs
  let (g2, cs) ← readNumber charToDigitDec 10 3 255 false cs
  let cs ← readGivenChar '.' cs
  let (g3, cs) ← readNumber charToDigitDec 10 3 255 false cs
  pure (⟨g0, g1, g2, g3⟩, cs)

/-- The `read_groups` helper of Rust `Parser::read_ipv6_addr`.  The Rust loop
runs `i` from the current index up to `limit`; here `rem = limit - i` is the
structural fuel, so the trailing-IPv4 attempt (Rust `i < limit - 1`) is
allowed when `1 ≤ rem`.  Returns (groups read, trailing-IPv4 flag, rest). -/
def readGroupsAux : Nat → Nat → Str → List Nat → List Nat × Bool × Str
  | 0, _, cs, acc => (acc, false, cs)
  | rem + 1, i, cs, acc =>
    let v4try : Option (Ipv4Addr × Str) :=
      if 1 ≤ rem then readSeparator ':' i readIpv4Addr cs else none
    match v4try with
    | some (a, cs1) => (acc ++ [a.o0 * 256 + a.o1, a.o2 * 256 + a.o3], true, cs1)
    | none =>
      match readSeparator ':' i (readNumber charToDigitHex 16 4 65535 true) cs with
      | some (g, cs1) => readGroupsAux rem (i + 1) cs1 (acc ++ [g])
      | none => (acc, false, cs)

/-- Rust `Parser::read_ipv6_addr`: up to 8 groups; fewer than 8 requires a
`::` filling the middle with zero groups (an embedded IPv4 is only allowed at
the end, never before the `::`). -/
def readIpv6Addr (cs : Str) : Option (List Nat × Str) :=
  match readGroupsAux 8 0 cs [] with
  | (head, headIpv4, cs1) =>
    if head.length = 8 then some (head, cs1)
    else if headIpv4 then none
    else
      match readGivenChar ':' cs1 with
      | none => none
      | some cs2 =>
        match readGivenChar ':' cs2 with
        | none => none
        | some cs3 =>
          match readGroupsAux (8 - (head.length + 1)) 0 cs3 [] with
          | (tail, _, cs4) =>
            some (head ++ List.replicate (8 - head.length - tail.length) 0 ++ tail, cs4)

/-- Rust `IpAddr::from_str` (`parse_with(read_ip_addr)`): try IPv4 first;
only if the IPv4 parser fails outright is IPv6 tried; either way the whole
input must be consumed. -/
def parseIpAddr (s : Str) : Option IpAddr :=
  match readIpv4Addr s with
  | some (a, rest) => if rest = [] then some (.v4 a) else none
  | none =>
    match readIpv6Addr s with
    | some (segs, rest) => if rest = [] then some (.v6 segs) else none
    | none => none

/-- Lowercase hex digit character. -/
def hexDigitChar (d : Nat) : Char := Char.ofNat (if d < 10 then 48 + d else 87 + d)

/-- Fuel-based hex digit emitter (most significant first, empty for 0). -/
def toHexAux : Nat → Nat → Str
  | 0, _ => []
  | fuel + 1, n => if n = 0 then [] else toHexAux fuel (n / 16) ++ [hexDigitChar (n % 16)]

/-- Rust `{:x}` of a u16 segment: lowercase hex, no leading zeros. -/
def hexRepr (n : Nat) : Str := if n = 0 then "0".data else toHexAux (n + 1) n

/-- Rust `Ipv4Addr` Display: dotted decimal. -/
def displayV4 (a : Ipv4Addr) : Str :=
  natRepr a.o0 ++ '.' :: natRepr a.o1 ++ '.' :: natRepr a.o2 ++ '.' :: natRepr a.o3

/-- The longest-zero-run scan of Rust `Ipv6Addr` Display (first run wins on
ties because only a strictly longer run replaces the stored one).
Returns (start, length). -/
def zeroRunFold (segs : List Nat) : Nat × Nat :=
  let st := segs.foldl
    (fun (st : Nat × Nat × Nat × Nat × Nat) seg =>
      match st with
      | (i, cs, cl, ls, ll) =>
        if seg = 0 then
          let cs1 := if cl = 0 then i else cs
          let cl1 := cl + 1
          if ll < cl1 then (i + 1, cs1, cl1, cs1, cl1) else (i + 1, cs1, cl1, ls, ll)
        else (i + 1, cs, 0, ls, ll))
    (0, 0, 0, 0, 0)
  (st.2.2.2.1, st.2.2.2.2)

/-- Rust `Ipv6Addr` Display: `::` for unspecified, `::1` for loopback, the
`::ffff:a.b.c.d` form for IPv4-mapped addresses, otherwise hex groups with
the longest zero run (of length at least 2) compressed to `::`. -/
def displayV6 (segs : List Nat) : Str :=
  if segs = [0, 0, 0, 0, 0, 0, 0, 0] then "::".data
  else if segs = [0, 0, 0, 0, 0, 0, 0, 1] then "::1".data
  else if segs.take 6 = [0, 0, 0, 0, 0, 0xffff] then
    "::ffff:".data ++ displayV4 ⟨segs.getD 6 0 / 256, segs.getD 6 0 % 256,
      segs.getD 7 0 / 256, segs.getD 7 0 % 256⟩
  else
    match zeroRunFold segs with
    | (ls, ll) =>
      if 1 < ll then
        List.intercalate [':'] ((segs.take ls).map hexRepr) ++ "::".data ++
          List.intercalate [':'] ((segs.drop (ls + ll)).map hexRepr)
      else List.intercalate [':'] (segs.map hexRepr)

/-! ## SOCKS5 UDP encapsulation (src/socks5.rs, impl Socks5UdpRelay) -/

namespace Socks5UdpRelay

/-- Rust `u16::from_str` as used by parse_address: optional leading '+',
then a non-empty all-decimal-digit string with value at most 65535 (checked
arithmetic overflow is again equivalent to a final-value bound because the
accumulator is monotone). -/
def parseU16 (s : Str) : Option Nat :=
  let t := match s with
    | '+' :: r => r
    | _ => s
  if t = [] then none
  else if t.all fun c => (charToDigitDec c).isSome then
    let v := t.foldl (fun acc c => 10 * acc + (charToDigitDec c).getD 0) 0
    if v ≤ 65535 then some v else none
  else none

/-- Rust `addr.rsplitn(2, ':')`: split at the last colon, none when the
string has no colon (then `parts.len() != 2`). -/
def rsplitOnceColon : Str → Option (Str × Str)
  | [] => none
  | c :: rest =>
    match rsplitOnceColon rest with
    | some (before, after) => some (c :: before, after)
    | none => if c = ':' then some ([], rest) else none

/-- Embeds `Socks5UdpRelay::parse_address` (src/socks5.rs:500-514), which is
textually identical to `Socks5Client::parse_address` (src/socks5.rs:363-377). -/
def parse_address (addr : Str) : Except NetworkTestError (Str × Nat) :=
  match rsplitOnceColon addr with
  | none => .error (.config ("Invalid address format: ".data ++ addr))
  | some (host, portStr) =>
    match parseU16 portStr with
    | none => .error (.config ("Invalid port: ".data ++ portStr))
    | some port => .ok (host, port)

/-- Embeds `Socks5UdpRelay::encapsulate_udp_packet` (src/socks5.rs:469-498):
RSV(2)=0, FRAG=0, then ATYP 0x01/0x04 when the host parses as an IP literal
(0x03 with a `len() as u8` prefix otherwise), the big-endian port, and the
payload. -/
def encapsulate_udp_packet (data : List Nat) (target_addr : Str) :
    Except NetworkTestError (List Nat) :=
  match parse_address target_addr with
  | .error e => .error e
  | .ok (host, port) =>
    let addrPart : List Nat :=
      match parseIpAddr host with
      | some (.v4 a) => [0x01, a.o0, a.o1, a.o2, a.o3]
      | some (.v6 segs) => 0x04 :: segs.flatMap fun s => [s / 256, s % 256]
      | none => 0x03 :: host.length % 256 :: strBytes host
    .ok ([0x00, 0x00] ++ [0x00] ++ addrPart ++ [port / 256, port % 256] ++ data)

/-- Embeds `Socks5UdpRelay::recv_from` (src/socks5.rs:390-467): require at
least 10 bytes, RSV = 0, FRAG = 0, then decode the address per ATYP and
return (payload, origin string).  Buffer indexing is rendered as structural
matching; the catch-all arms are unreachable because the preceding length
guards (n ≥ 10, n ≥ 22) already bound the shape. -/
def recv_from (packet : List Nat) : Except NetworkTestError (List Nat × Str) :=
  if packet.length < 10 then
    .error (.connection "Invalid SOCKS5 UDP packet: too short".data)
  else
    match packet with
    | b0 :: b1 :: b2 :: b3 :: rest =>
      if b0 ≠ 0 ∨ b1 ≠ 0 then
        .error (.connection "Invalid SOCKS5 UDP packet: bad header".data)
      else if b2 ≠ 0 then
        .error (.connection "Fragmentation not supported".data)
      else if b3 = 0x01 then
        match rest with
        | o0 :: o1 :: o2 :: o3 :: p1 :: p2 :: payload =>
          .ok (payload, displayV4 ⟨o0, o1, o2, o3⟩ ++ ':' :: natRepr (p1 * 256 + p2))
        | _ => .error (.connection "Invalid IPv4 UDP packet".data)
      else if b3 = 0x03 then
        match rest with
        | dlen :: rest2 =>
          if packet.length < 5 + dlen + 2 then
            .error (.connection "Invalid domain UDP packet: too short".data)
          else
            .ok (rest2.drop (dlen + 2),
              bytesToStr (rest2.take dlen) ++ ':' ::
                natRepr (rest2.getD dlen 0 * 256 + rest2.getD (dlen + 1) 0))
        | [] => .error (.connection "Invalid domain UDP packet".data)
      else if b3 = 0x04 then
        if packet.length < 22 then
          .error (.connection "Invalid IPv6 UDP packet".data)
        else
          match rest with
          | c0 :: c1 :: c2 :: c3 :: c4 :: c5 :: c6 :: c7 :: c8 :: c9 :: c10 :: c11 ::
              c12 :: c13 :: c14 :: c15 :: p1 :: p2 :: payload =>
            .ok (payload,
              displayV6 [c0 * 256 + c1, c2 * 256 + c3, c4 * 256 + c5, c6 * 256 + c7,
                  c8 * 256 + c9, c10 * 256 + c11, c12 * 256 + c13, c14 * 256 + c15] ++
                ':' :: natRepr (p1 * 256 + p2))
          | _ => .error (.connection "Invalid IPv6 UDP packet".data)
      else .error (.connection ("Unsupported address type: ".data ++ natRepr b3))
    | _ => .error (.connection "Invalid SOCKS5 UDP packet: bad header".data)

end Socks5UdpRelay

/-- C1 counterexample: with the two-byte domain "ab" and an empty payload the
encapsulated datagram is only 9 bytes, so recv_from rejects it as too short
instead of returning the payload and target back. -/
theorem c1_counterexample :
    Socks5UdpRelay.encapsulate_udp_packet [] "ab:80".data
        = .ok [0x00, 0x00, 0x00, 0x03, 2, 97, 98, 0, 80] ∧
      Socks5UdpRelay.recv_from [0x00, 0x00, 0x00, 0x03, 2, 97, 98, 0, 80]
        = .error (.connection "Invalid SOCKS5 UDP packet: too short".data) := by
  constructor
  · rfl
  · rfl

/-! ### Decimal-representation lemmas (claim C1) -/

lemma char_toNat_ofNat_valid (n : Nat) (h : n < 55296) : (Char.ofNat n).toNat = n := by
  have hv : Nat.isValidChar n := Or.inl h
  simp [Char.ofNat, hv, Char.ofNatAux, Char.toNat, UInt32.toNat, BitVec.toNat_ofNatLt]

lemma charToDigitDec_digitChar (d : Nat) (hd : d < 10) :
    charToDigitDec (Char.ofNat (48 + d)) = some d := by
  have h1 : (Char.ofNat (48 + d)).toNat = 48 + d := char_toNat_ofNat_valid _ (by omega)
  rw [charToDigitDec, h1, if_pos (by omega)]
  congr 1
  omega

lemma toDecAux_eq (fuel : Nat) :
    ∀ n : Nat, n ≤ fuel →
      toDecAux fuel n = (Nat.digits 10 n).reverse.map fun d => Char.ofNat (48 + d) := by
  induction fuel with
  | zero =>
    intro n h
    have : n = 0 := by omega
    subst this
    simp [toDecAux]
  | succ fuel ih =>
    intro n h
    by_cases hn : n = 0
    · subst hn
      simp [toDecAux]
    · rw [toDecAux, if_neg hn, ih (n / 10) (by omega),
        Nat.digits_def' (by norm_num : (1 : ℕ) < 10) (Nat.pos_of_ne_zero hn)]
      try simp

lemma natRepr_eq (n : Nat) :
    natRepr n =
      if n = 0 then ['0']
      else (Nat.digits 10 n).reverse.map fun d => Char.ofNat (48 + d) := by
  by_cases hn : n = 0
  · subst hn
    rfl
  · rw [natRepr, if_neg hn, if_neg hn, toDecAux_eq _ _ (by omega)]

lemma natRepr_chars (n : Nat) (c : Char) (hc : c ∈ natRepr n) :
    ∃ d, d < 10 ∧ c = Char.ofNat (48 + d) := by
  rw [natRepr_eq] at hc
  by_cases hn : n = 0
  · rw [if_pos hn] at hc
    rw [List.mem_singleton] at hc
    exact ⟨0, by omega, by rw [hc]⟩
  · rw [if_neg hn] at hc
    rcases List.mem_map.mp hc with ⟨d, hd, rfl⟩
    exact ⟨d, Nat.digits_lt_base (by norm_num) (List.mem_reverse.mp hd), rfl⟩

lemma natRepr_ne_nil (n : Nat) : natRepr n ≠ [] := by
  rw [natRepr_eq]
  by_cases hn : n = 0
  · simp [hn]
  · simp [hn, Nat.digits_ne_nil_iff_ne_zero.mpr hn]

lemma foldl_map_digitChar (L : List Nat) (hL : ∀ d ∈ L, d < 10) :
    ∀ acc : Nat,
      ((L.map fun d => Char.ofNat (48 + d)).foldl
          (fun a c => 10 * a + (charToDigitDec c).getD 0) acc)
        = L.foldl (fun a d => 10 * a + d) acc := by
  induction L with
  | nil => intro acc; rfl
  | cons d t ih =>
    intro acc
    have hd : d < 10 := hL d (List.mem_cons_self d t)
    simp only [List.map_cons, List.foldl_cons, charToDigitDec_digitChar d hd,
      Option.getD_some]
    exact ih (fun x hx => hL x (List.mem_cons_of_mem _ hx)) _

lemma bigVal_eq_ofDigits (L : List Nat) :
    ∀ acc : Nat,
      L.foldl (fun a d => 10 * a + d) acc
        = acc * 10 ^ L.length + Nat.ofDigits 10 L.reverse := by
  induction L with
  | nil => intro acc; simp
  | cons d t ih =>
    intro acc
    rw [List.foldl_cons, ih, List.reverse_cons, Nat.ofDigits_append]
    simp only [List.length_reverse, List.length_cons, Nat.ofDigits_singleton]
    ring

lemma natRepr_val (n : Nat) :
    (natRepr n).foldl (fun a c => 10 * a + (charToDigitDec c).getD 0) 0 = n := by
  rw [natRepr_eq]
  by_cases hn : n = 0
  · subst hn
    rfl
  · rw [if_neg hn,
      foldl_map_digitChar _ (fun d hd => Nat.digits_lt_base (by norm_num)
        (List.mem_reverse.mp hd)),
      bigVal_eq_ofDigits]
    simp [Nat.ofDigits_digits]

lemma natRepr_head_digit (n : Nat) :
    ∃ d t, d < 10 ∧ natRepr n = Char.ofNat (48 + d) :: t := by
  rcases hrep : natRepr n with _ | ⟨c, t⟩
  · exact absurd hrep (natRepr_ne_nil n)
  · have hc : c ∈ natRepr n := by rw [hrep]; exact List.mem_cons_self c t
    rcases natRepr_chars n c hc with ⟨d, hd, rfl⟩
    exact ⟨d, t, hd, rfl⟩

lemma parseU16_natRepr (p : Nat) (hp : p ≤ 65535) :
    Socks5UdpRelay.parseU16 (natRepr p) = some p := by
  rcases natRepr_head_digit p with ⟨d, t, hd, hrep⟩
  have hnoplus : ∀ r, natRepr p ≠ '+' :: r := by
    intro r heq
    rw [hrep, List.cons.injEq] at heq
    have h1 := char_toNat_ofNat_valid (48 + d) (by omega)
    rw [heq.1] at h1
    have h2 : ('+' : Char).toNat = 43 := rfl
    omega
  have hall : ((natRepr p).all fun c => (charToDigitDec c).isSome) = true := by
    rw [List.all_eq_true]
    intro c hc
    rcases natRepr_chars p c hc with ⟨e, he, rfl⟩
    rw [charToDigitDec_digitChar e he]
    rfl
  unfold Socks5UdpRelay.parseU16
  split
  · rename_i r heq
    exact absurd heq (hnoplus r)
  · rw [if_neg (natRepr_ne_nil p), if_pos hall]
    simp only [natRepr_val]
    rw [if_pos hp]

lemma colon_not_mem_natRepr (p : Nat) : ':' ∉ natRepr p := by
  intro hc
  rcases natRepr_chars p ':' hc with ⟨d, hd, hchar⟩
  have h1 := char_toNat_ofNat_valid (48 + d) (by omega)
  rw [← hchar] at h1
  have h2 : (':' : Char).toNat = 58 := rfl
  omega

lemma rsplitOnceColon_no_colon (s : Str) (h : ':' ∉ s) :
    Socks5UdpRelay.rsplitOnceColon s = none := by
  induction s with
  | nil => rfl
  | cons c rest ih =>
    have hc : c ≠ ':' := fun hcc => h (hcc ▸ List.mem_cons_self c rest)
    have hr : ':' ∉ rest := fun hcc => h (List.mem_cons_of_mem c hcc)
    rw [Socks5UdpRelay.rsplitOnceColon, ih hr, if_neg hc]

lemma rsplitOnceColon_append (host t : Str) (h : ':' ∉ t) :
    Socks5UdpRelay.rsplitOnceColon (host ++ ':' :: t) = some (host, t) := by
  induction host with
  | nil =>
    rw [List.nil_append, Socks5UdpRelay.rsplitOnceColon, rsplitOnceColon_no_colon t h,
      if_pos rfl]
  | cons c rest ih =>
    rw [List.cons_append, Socks5UdpRelay.rsplitOnceColon, ih]

lemma parse_address_mkTarget (host : Str) (p : Nat) (hp : p ≤ 65535) :
    Socks5UdpRelay.parse_address (host ++ ':' :: natRepr p) = .ok (host, p) := by
  simp only [Socks5UdpRelay.parse_address,
    rsplitOnceColon_append host (natRepr p) (colon_not_mem_natRepr p),
    parseU16_natRepr p hp]

/-! ### Canonical-form lemmas for the IPv4 parser (claim C1) -/

lemma charToDigitDec_some (c : Char) (d : Nat) (h : charToDigitDec c = some d) :
    d < 10 ∧ c = Char.ofNat (48 + d) := by
  unfold charToDigitDec at h
  split at h
  · rename_i hrange
    rw [Option.some.injEq] at h
    subst h
    refine ⟨by omega, ?_⟩
    have : 48 + (c.toNat - 48) = c.toNat := by omega
    rw [this, Char.ofNat_toNat]
  · cases h

lemma digit_run_natRepr (run : List Char) (hne : run ≠ [])
    (hdigits : ∀ c ∈ run, (charToDigitDec c).isSome = true)
    (hnolead : run.headD ' ' = '0' → run.length = 1) :
    natRepr (run.foldl (fun acc c => 10 * acc + (charToDigitDec c).getD 0) 0) = run := by
  have hchar : ∀ c ∈ run, (charToDigitDec c).getD 0 < 10 ∧
      c = Char.ofNat (48 + (charToDigitDec c).getD 0) := by
    intro c hc
    rcases Option.isSome_iff_exists.mp (hdigits c hc) with ⟨d, hd⟩
    rcases charToDigitDec_some c d hd with ⟨hlt, hcc⟩
    rw [hd]
    exact ⟨hlt, hcc⟩
  have hrun_eq : (run.map fun c => (charToDigitDec c).getD 0).map
      (fun d => Char.ofNat (48 + d)) = run := by
    rw [List.map_map]
    refine (List.map_congr_left ?_).trans (List.map_id run)
    intro c hc
    exact ((hchar c hc).2).symm
  have hds_lt : ∀ d ∈ run.map fun c => (charToDigitDec c).getD 0, d < 10 := by
    intro d hd
    rcases List.mem_map.mp hd with ⟨c, hc, rfl⟩
    exact (hchar c hc).1
  have hval : run.foldl (fun acc c => 10 * acc + (charToDigitDec c).getD 0) 0
      = Nat.ofDigits 10 (run.map fun c => (charToDigitDec c).getD 0).reverse := by
    conv_lhs => rw [← hrun_eq]
    rw [foldl_map_digitChar _ hds_lt, bigVal_eq_ofDigits]
    simp
  rcases run with _ | ⟨c0, t⟩
  · exact absurd rfl hne
  · by_cases hzero : c0 = '0'
    · have hlen : (c0 :: t).length = 1 := hnolead (by rw [hzero]; rfl)
      have ht : t = [] := by
        rcases t with _ | _
        · rfl
        · simp at hlen
      subst ht hzero
      rfl
    · have hd0 : (charToDigitDec c0).getD 0 ≠ 0 := by
        intro hc0
        have := (hchar c0 (List.mem_cons_self c0 t)).2
        rw [hc0] at this
        exact hzero (by rw [this])
      set ds := (c0 :: t).map fun c => (charToDigitDec c).getD 0 with hds
      have hds_ne : ds ≠ [] := by simp [hds]
      have hlast : ∀ h : ds.reverse ≠ [], ds.reverse.getLast h ≠ 0 := by
        intro h
        have h1 : ds.reverse.getLast? = some (ds.reverse.getLast h) :=
          List.getLast?_eq_getLast _ h
        rw [List.getLast?_reverse] at h1
        have h2 : ds.head? = some ((charToDigitDec c0).getD 0) := by
          rw [hds]
          rfl
        rw [h2] at h1
        rw [Option.some.injEq] at h1
        rw [← h1]
        exact hd0
      have hdig : Nat.digits 10 (Nat.ofDigits 10 ds.reverse) = ds.reverse :=
        Nat.digits_ofDigits 10 (by norm_num) ds.reverse
          (fun d hd => hds_lt d (List.mem_reverse.mp hd)) hlast
      have hv_ne : Nat.ofDigits 10 ds.reverse ≠ 0 := by
        intro hzero'
        rw [hzero', Nat.digits_zero] at hdig
        exact hds_ne (by simpa using hdig.symm)
      rw [hval, natRepr_eq, if_neg hv_ne, hdig]
      simpa using hrun_eq

lemma readNumber_dec_canonical (cs : Str) (v : Nat) (rest : Str)
    (h : readNumber charToDigitDec 10 3 255 false cs = some (v, rest)) :
    cs = natRepr v ++ rest := by
  simp only [readNumber] at h
  split at h
  · cases h
  · split at h
    · cases h
    · split at h
      · cases h
      · split at h
        · cases h
        · rename_i hne hlen hcap hlead
          rw [Option.some.injEq, Prod.mk.injEq] at h
          obtain ⟨hv, hrest⟩ := h
          have hnolead : (cs.takeWhile fun c => (charToDigitDec c).isSome).headD ' ' = '0' →
              (cs.takeWhile fun c => (charToDigitDec c).isSome).length = 1 := by
            intro hh
            by_contra hcon
            exact hlead ⟨by simp, hh, by omega⟩
          have hrun := digit_run_natRepr (cs.takeWhile fun c => (charToDigitDec c).isSome)
            (fun hnil => hne (by rw [hnil]; rfl))
            (fun c hc => by
              have hp := List.mem_takeWhile_imp hc
              simpa using hp)
            hnolead
          rw [hv] at hrun
          rw [hrun, ← hrest]
          exact (List.takeWhile_append_dropWhile _ _).symm

lemma readGivenChar_eq (c : Char) (cs rest : Str) (h : readGivenChar c cs = some rest) :
    cs = c :: rest := by
  unfold readGivenChar at h
  split at h
  · cases h
  · rename_i x r
    split at h
    · rename_i hxc
      rw [Option.some.injEq] at h
      rw [hxc, h]
    · cases h

lemma readIpv4Addr_eq (cs : Str) (a : Ipv4Addr) (rest : Str)
    (h : readIpv4Addr cs = some (a, rest)) : cs = displayV4 a ++ rest := by
  unfold readIpv4Addr at h
  rcases e0 : readNumber charToDigitDec 10 3 255 false cs with _ | ⟨g0, cs0⟩ <;>
    rw [e0] at h
  · cases h
  simp only [Option.bind_eq_bind, Option.some_bind] at h
  rcases e1 : readGivenChar '.' cs0 with _ | cs1 <;> rw [e1] at h
  · cases h
  simp only [Option.bind_eq_bind, Option.some_bind] at h
  rcases e2 : readNumber charToDigitDec 10 3 255 false cs1 with _ | ⟨g1, cs2⟩ <;>
    rw [e2] at h
  · cases h
  simp only [Option.bind_eq_bind, Option.some_bind] at h
  rcases e3 : readGivenChar '.' cs2 with _ | cs3 <;> rw [e3] at h
  · cases h
  simp only [Option.bind_eq_bind, Option.some_bind] at h
  rcases e4 : readNumber charToDigitDec 10 3 255 false cs3 with _ | ⟨g2, cs4⟩ <;>
    rw [e4] at h
  · cases h
  simp only [Option.bind_eq_bind, Option.some_bind] at h
  rcases e5 : readGivenChar '.' cs4 with _ | cs5 <;> rw [e5] at h
  · cases h
  simp only [Option.bind_eq_bind, Option.some_bind] at h
  rcases e6 : readNumber charToDigitDec 10 3 255 false cs5 with _ | ⟨g3, cs6⟩ <;>
    rw [e6] at h
  · cases h
  simp only [Option.bind_eq_bind, Option.some_bind, Option.pure_def,
    Option.some.injEq, Prod.mk.injEq] at h
  obtain ⟨ha, hrest⟩ := h
  subst ha hrest
  rw [readNumber_dec_canonical _ _ _ e0, readGivenChar_eq _ _ _ e1,
    readNumber_dec_canonical _ _ _ e2, readGivenChar_eq _ _ _ e3,
    readNumber_dec_canonical _ _ _ e4, readGivenChar_eq _ _ _ e5,
    readNumber_dec_canonical _ _ _ e6]
  simp [displayV4]

lemma displayV4_parseIpAddr (host : Str) (a : Ipv4Addr)
    (h : parseIpAddr host = some (.v4 a)) : displayV4 a = host := by
  unfold parseIpAddr at h
  split at h
  · rename_i a0 rest heq
    split at h
    · rename_i hrest
      injection h with h2
      injection h2 with h3
      subst h3
      subst hrest
      have hh := readIpv4Addr_eq _ _ _ heq
      rw [hh]
      simp
    · cases h
  · rename_i heq0
    split at h
    · rename_i segs rest heq1
      split at h
      · injection h with h2
        cases h2
      · cases h
    · cases h

/-! ### IPv6 group-count lemma and round-trip branch lemmas (claim C1) -/

lemma readGroupsAux_len (fuel : Nat) :
    ∀ i cs acc, (readGroupsAux fuel i cs acc).1.length ≤ acc.length + fuel := by
  induction fuel with
  | zero =>
    intro i cs acc
    simp [readGroupsAux]
  | succ rem ih =>
    intro i cs acc
    simp only [readGroupsAux]
    split
    · rename_i a cs1 heq
      have h1 : 1 ≤ rem := by
        by_contra hc
        rw [if_neg hc] at heq
        cases heq
      simp
      omega
    · split
      · rename_i g cs1 heq
        have := ih (i + 1) cs1 (acc ++ [g])
        simp at this
        simp
        omega
      · simp

lemma readIpv6Addr_len (cs : Str) (segs : List Nat) (rest : Str)
    (h : readIpv6Addr cs = some (segs, rest)) : segs.length = 8 := by
  unfold readIpv6Addr at h
  split at h
  rename_i head headIpv4 cs1 heq
  split at h
  · rename_i hlen8
    rw [Option.some.injEq, Prod.mk.injEq] at h
    obtain ⟨h1, h2⟩ := h
    rw [← h1]
    exact hlen8
  · rename_i hlen8
    split at h
    · cases h
    · split at h
      · cases h
      · rename_i cs2 heq2
        split at h
        · cases h
        · rename_i cs3 heq3
          split at h
          rename_i tail tailIpv4 cs4 heq4
          rw [Option.some.injEq, Prod.mk.injEq] at h
          obtain ⟨h1, h2⟩ := h
          have hhead := readGroupsAux_len 8 0 cs []
          rw [heq] at hhead
          simp at hhead
          have htail := readGroupsAux_len (8 - (head.length + 1)) 0 cs3 []
          rw [heq4] at htail
          simp at htail
          rw [← h1]
          simp only [List.length_append, List.length_replicate]
          omega

lemma parseIpAddr_v6 (host : Str) (segs : List Nat)
    (h : parseIpAddr host = some (.v6 segs)) : readIpv6Addr host = some (segs, []) := by
  unfold parseIpAddr at h
  split at h
  · split at h
    · injection h with h2
      cases h2
    · cases h
  · split at h
    · rename_i segs0 rest0 heq
      split at h
      · rename_i hrest
        injection h with h2
        injection h2 with h3
        subst h3
        subst hrest
        exact heq
      · cases h
    · cases h

lemma recv_encap_v4 (data : List Nat) (host : Str) (port : Nat) (a : Ipv4Addr)
    (hp : port ≤ 65535) (hip : parseIpAddr host = some (.v4 a)) :
    Socks5UdpRelay.encapsulate_udp_packet data (host ++ ':' :: natRepr port)
        = .ok (0 :: 0 :: 0 :: 1 :: a.o0 :: a.o1 :: a.o2 :: a.o3 ::
            (port / 256) :: (port % 256) :: data) ∧
      Socks5UdpRelay.recv_from (0 :: 0 :: 0 :: 1 :: a.o0 :: a.o1 :: a.o2 :: a.o3 ::
            (port / 256) :: (port % 256) :: data)
        = .ok (data, host ++ ':' :: natRepr port) := by
  constructor
  · unfold Socks5UdpRelay.encapsulate_udp_packet
    rw [parse_address_mkTarget host port hp]
    simp only [hip]
    rfl
  · have hlen : ¬ ((0 :: 0 :: 0 :: 1 :: a.o0 :: a.o1 :: a.o2 :: a.o3 ::
        (port / 256) :: (port % 256) :: data : List Nat).length < 10) := by
      simp
    unfold Socks5UdpRelay.recv_from
    rw [if_neg hlen]
    have hport : port / 256 * 256 + port % 256 = port := by omega
    norm_num
    rw [hport, displayV4_parseIpAddr host a hip]

lemma recv_encap_v6 (data : List Nat) (host : Str) (port : Nat) (segs : List Nat)
    (hp : port ≤ 65535) (hip : parseIpAddr host = some (.v6 segs))
    (hcanon : displayV6 segs = host) :
    ∃ packet,
      Socks5UdpRelay.encapsulate_udp_packet data (host ++ ':' :: natRepr port)
          = .ok packet ∧
        Socks5UdpRelay.recv_from packet = .ok (data, host ++ ':' :: natRepr port) := by
  have hlen8 := readIpv6Addr_len host segs [] (parseIpAddr_v6 host segs hip)
  rcases segs with _ | ⟨s0, segs⟩
  · simp at hlen8
  rcases segs with _ | ⟨s1, segs⟩
  · simp at hlen8
  rcases segs with _ | ⟨s2, segs⟩
  · simp at hlen8
  rcases segs with _ | ⟨s3, segs⟩
  · simp at hlen8
  rcases segs with _ | ⟨s4, segs⟩
  · simp at hlen8
  rcases segs with _ | ⟨s5, segs⟩
  · simp at hlen8
  rcases segs with _ | ⟨s6, segs⟩
  · simp at hlen8
  rcases segs with _ | ⟨s7, segs⟩
  · simp at hlen8
  rcases segs with _ | ⟨s8, segs⟩
  · refine ⟨0 :: 0 :: 0 :: 4 :: (s0 / 256) :: (s0 % 256) :: (s1 / 256) :: (s1 % 256) ::
      (s2 / 256) :: (s2 % 256) :: (s3 / 256) :: (s3 % 256) :: (s4 / 256) :: (s4 % 256) ::
      (s5 / 256) :: (s5 % 256) :: (s6 / 256) :: (s6 % 256) :: (s7 / 256) :: (s7 % 256) ::
      (port / 256) :: (port % 256) :: data, ?_, ?_⟩
    · unfold Socks5UdpRelay.encapsulate_udp_packet
      rw [parse_address_mkTarget host port hp]
      simp only [hip]
      rfl
    · have hlen : ¬ ((0 :: 0 :: 0 :: 4 :: (s0 / 256) :: (s0 % 256) :: (s1 / 256) ::
          (s1 % 256) :: (s2 / 256) :: (s2 % 256) :: (s3 / 256) :: (s3 % 256) ::
          (s4 / 256) :: (s4 % 256) :: (s5 / 256) :: (s5 % 256) :: (s6 / 256) ::
          (s6 % 256) :: (s7 / 256) :: (s7 % 256) ::
          (port / 256) :: (port % 256) :: data : List Nat).length < 10) := by
        simp
      have hlen22 : ¬ ((0 :: 0 :: 0 :: 4 :: (s0 / 256) :: (s0 % 256) :: (s1 / 256) ::
          (s1 % 256) :: (s2 / 256) :: (s2 % 256) :: (s3 / 256) :: (s3 % 256) ::
          (s4 / 256) :: (s4 % 256) :: (s5 / 256) :: (s5 % 256) :: (s6 / 256) ::
          (s6 % 256) :: (s7 / 256) :: (s7 % 256) ::
          (port / 256) :: (port % 256) :: data : List Nat).length < 22) := by
        simp
      unfold Socks5UdpRelay.recv_from
      rw [if_neg hlen]
      have hport : port / 256 * 256 + port % 256 = port := by omega
      have hs0 : s0 / 256 * 256 + s0 % 256 = s0 := by omega
      have hs1 : s1 / 256 * 256 + s1 % 256 = s1 := by omega
      have hs2 : s2 / 256 * 256 + s2 % 256 = s2 := by omega
      have hs3 : s3 / 256 * 256 + s3 % 256 = s3 := by omega
      have hs4 : s4 / 256 * 256 + s4 % 256 = s4 := by omega
      have hs5 : s5 / 256 * 256 + s5 % 256 = s5 := by omega
      have hs6 : s6 / 256 * 256 + s6 % 256 = s6 := by omega
      have hs7 : s7 / 256 * 256 + s7 % 256 = s7 := by omega
      norm_num
      split
      · rename_i hcon
        exact absurd hcon (by omega)
      · rw [hport, hs0, hs1, hs2, hs3, hs4, hs5, hs6, hs7, hcanon]
  · simp at hlen8

lemma recv_encap_domain (data : List Nat) (host : Str) (port : Nat)
    (hp : port ≤ 65535) (hip : parseIpAddr host = none)
    (hhost : host.length ≤ 255) (hmin : 3 ≤ host.length + data.length) :
    ∃ packet,
      Socks5UdpRelay.encapsulate_udp_packet data (host ++ ':' :: natRepr port)
          = .ok packet ∧
        Socks5UdpRelay.recv_from packet = .ok (data, host ++ ':' :: natRepr port) := by
  have hmod : host.length % 256 = host.length := Nat.mod_eq_of_lt (by omega)
  refine ⟨0 :: 0 :: 0 :: 3 :: host.length :: (strBytes host ++
    (port / 256) :: (port % 256) :: data), ?_, ?_⟩
  · unfold Socks5UdpRelay.encapsulate_udp_packet
    rw [parse_address_mkTarget host port hp]
    simp only [hip, hmod]
    simp
  · have hsb : (strBytes host).length = host.length := by
      simp [strBytes]
    have hlen : ¬ ((0 :: 0 :: 0 :: 3 :: host.length :: (strBytes host ++
        (port / 256) :: (port % 256) :: data) : List Nat).length < 10) := by
      simp [hsb]
      omega
    unfold Socks5UdpRelay.recv_from
    rw [if_neg hlen]
    norm_num
    split
    · rename_i hcon
      exact absurd hcon (by omega)
    · have htake : (strBytes host ++ (port / 256) :: (port % 256) :: data).take host.length
          = strBytes host := List.take_left' hsb
      have hdrop : (strBytes host ++ (port / 256) :: (port % 256) :: data).drop
          (host.length + 2) = data := by
        have hassoc : strBytes host ++ (port / 256) :: (port % 256) :: data
            = (strBytes host ++ [port / 256, port % 256]) ++ data := by
          simp
        rw [hassoc]
        refine List.drop_left' ?_
        simp [hsb]
      have hgd1 : (strBytes host ++
          (port / 256) :: (port % 256) :: data)[host.length]?.getD 0 = port / 256 := by
        rw [List.getElem?_append_right (by omega)]
        simp [hsb]
      have hgd2 : (strBytes host ++
          (port / 256) :: (port % 256) :: data)[host.length + 1]?.getD 0 = port % 256 := by
        rw [List.getElem?_append_right (by omega)]
        simp [hsb]
      have hbs : bytesToStr (strBytes host) = host := by
        simp only [bytesToStr, strBytes, List.map_map]
        refine (List.map_congr_left ?_).trans (List.map_id host)
        intro c _
        exact Char.ofNat_toNat c
      rw [htake, hdrop, hgd1, hgd2, hbs]
      have hport : port / 256 * 256 + port % 256 = port := by omega
      rw [hport]

/-- C1 (amended): SOCKS5 UDP encapsulation followed by recv_from returns the
original payload and target string, provided the datagram reaches the 10-byte
minimum recv_from enforces (payload + domain length at least 3 for domain
targets), the port is written in canonical decimal, domains are at most 255
ASCII characters, and IPv6 literals are in canonical Display form; the
unamended claim fails on short domain datagrams (see the counterexample). -/
theorem c1_roundtrip (data : List Nat) (host : Str) (port : Nat)
    (hport : port ≤ 65535) :
    (∀ a, parseIpAddr host = some (.v4 a) →
      ∃ packet,
        Socks5UdpRelay.encapsulate_udp_packet data (host ++ ':' :: natRepr port)
            = .ok packet ∧
          Socks5UdpRelay.recv_from packet = .ok (data, host ++ ':' :: natRepr port)) ∧
    (∀ segs, parseIpAddr host = some (.v6 segs) → displayV6 segs = host →
      ∃ packet,
        Socks5UdpRelay.encapsulate_udp_packet data (host ++ ':' :: natRepr port)
            = .ok packet ∧
          Socks5UdpRelay.recv_from packet = .ok (data, host ++ ':' :: natRepr port)) ∧
    (parseIpAddr host = none → host.length ≤ 255 → 3 ≤ host.length + data.length →
      (∀ c ∈ host, c.toNat < 128) →
      ∃ packet,
        Socks5UdpRelay.encapsulate_udp_packet data (host ++ ':' :: natRepr port)
            = .ok packet ∧
          Socks5UdpRelay.recv_from packet = .ok (data, host ++ ':' :: natRepr port)) :=
  ⟨fun a hip => ⟨_, (recv_encap_v4 data host port a hport hip).1,
      (recv_encap_v4 data host port a hport hip).2⟩,
    fun segs hip hcanon => recv_encap_v6 data host port segs hport hip hcanon,
    fun hip hhost hmin _ => recv_encap_domain data host port hport hip hhost hmin⟩

/-- Witness for C1 at payload [7, 8], target "1.2.3.4:80". -/
theorem c1_roundtrip_witness :
    (80 : Nat) ≤ 65535 ∧
      parseIpAddr "1.2.3.4".data = some (.v4 ⟨1, 2, 3, 4⟩) ∧
      ∃ packet,
        Socks5UdpRelay.encapsulate_udp_packet [7, 8] ("1.2.3.4".data ++ ':' :: natRepr 80)
            = .ok packet ∧
          Socks5UdpRelay.recv_from packet
            = .ok ([7, 8], "1.2.3.4".data ++ ':' :: natRepr 80) :=
  ⟨by norm_num, by rfl,
    (c1_roundtrip [7, 8] "1.2.3.4".data 80 (by norm_num)).1 ⟨1, 2, 3, 4⟩ (by rfl)⟩

end Nst
